import Mathlib

/-!
# Verification of the SLAYER adaptive load-generation core

A shallow embedding, in Lean 4, of the algorithmic core of the
`slayer_enterprise.testing` package: the circuit breaker and intelligent
throttle (`throttle.py`), the SLO monitor (`metrics.py`), the traffic
pattern schedulers (`patterns.py`) and the distributed coordinator's
load-splitting logic (`coordinator.py`).

Conventions of the embedding:
* Python `float` time and rate values are embedded as `ℚ` (exact
  arithmetic; the source performs only field operations and comparisons).
* Each Python method that reads the wall clock takes the sampled time as
  an explicit `now : ℚ` argument; all `time.time()` calls inside one
  method body are identified, which matches the source sampling the
  clock once per decision.
* Mutable objects become state-passing functions `State → ... → State`.
* `deque(maxlen := n)` becomes `pushBounded n` on lists (append, evicting
  from the front on overflow).
* Python generators become finite lists produced by fuel-bounded
  recursion; the fuel is chosen large enough to cover the whole
  generated range, and invariants are proved for every fuel.
-/

namespace Slayer

/-- Bounded append embedding `collections.deque(maxlen := maxLen)`:
append `x`, evicting the oldest entries when the buffer is full. -/
def pushBounded {α : Type} (maxLen : ℕ) (xs : List α) (x : α) : List α :=
  let ys := xs ++ [x]
  if ys.length ≤ maxLen then ys else ys.drop (ys.length - maxLen)

/-- Python `list[-n:]`: the last `n` elements (all of them when shorter). -/
def lastN {α : Type} (n : ℕ) (xs : List α) : List α :=
  xs.drop (xs.length - n)

/-- `statistics.mean` on rationals: sum divided by length. -/
def listMean (xs : List ℚ) : ℚ :=
  xs.sum / xs.length

/-- Python `list[-1]`: the last element, `none` on an empty list. -/
def pyLast {α : Type} : List α → Option α
  | [] => none
  | [a] => some a
  | _ :: b :: rest => pyLast (b :: rest)

/-! ## CircuitBreaker (`throttle.py`, class `CircuitBreaker`) -/

/-- The three circuit-breaker states (`self.state` strings `"closed"`,
`"open"`, `"half_open"` in the source; `open` is a Lean keyword, so the
middle state is called `opened`). -/
inductive CBState where
  | closed
  | opened
  | half_open
deriving DecidableEq

/-- State of `class CircuitBreaker`: constructor parameters plus the
mutable fields initialised in `__init__`. -/
structure CircuitBreaker where
  failure_threshold : ℕ
  recovery_timeout : ℚ
  success_threshold : ℕ
  state : CBState
  failure_count : ℕ
  success_count : ℕ
  last_failure_time : ℚ
deriving DecidableEq

namespace CircuitBreaker

/-- `CircuitBreaker._open`: block requests; stamps the failure time. -/
def doOpen (cb : CircuitBreaker) (now : ℚ) : CircuitBreaker :=
  { cb with state := .opened, last_failure_time := now, success_count := 0 }

/-- `CircuitBreaker._close`: allow requests again. -/
def doClose (cb : CircuitBreaker) : CircuitBreaker :=
  { cb with state := .closed, failure_count := 0, success_count := 0 }

/-- `CircuitBreaker._half_open`: test-mode state. -/
def doHalfOpen (cb : CircuitBreaker) : CircuitBreaker :=
  { cb with state := .half_open, success_count := 0 }

/-- `CircuitBreaker.record_success`. -/
def record_success (cb : CircuitBreaker) : CircuitBreaker :=
  if cb.state = .half_open then
    let cb := { cb with success_count := cb.success_count + 1 }
    if cb.success_threshold ≤ cb.success_count then cb.doClose else cb
  else
    { cb with failure_count := 0 }

/-- `CircuitBreaker.record_failure` (the `_open` transition samples the
clock, hence the `now` argument). -/
def record_failure (cb : CircuitBreaker) (now : ℚ) : CircuitBreaker :=
  if cb.state = .closed then
    let cb := { cb with failure_count := cb.failure_count + 1 }
    if cb.failure_threshold ≤ cb.failure_count then cb.doOpen now else cb
  else if cb.state = .half_open then
    cb.doOpen now
  else
    cb

/-- `CircuitBreaker.can_execute`: returns the decision and the possibly
updated breaker (the open-state timeout check half-opens the breaker as
a side effect). -/
def can_execute (cb : CircuitBreaker) (now : ℚ) : Bool × CircuitBreaker :=
  if cb.state = .closed then (true, cb)
  else if cb.state = .opened then
    if cb.recovery_timeout ≤ now - cb.last_failure_time then (true, cb.doHalfOpen)
    else (false, cb)
  else (true, cb)

end CircuitBreaker

/-- `n` consecutive calls to `record_failure`, all stamped `now`. -/
def recordFailures (cb : CircuitBreaker) (now : ℚ) : ℕ → CircuitBreaker
  | 0 => cb
  | n + 1 => (recordFailures cb now n).record_failure now

/-- `n` consecutive calls to `record_success`. -/
def recordSuccesses (cb : CircuitBreaker) : ℕ → CircuitBreaker
  | 0 => cb
  | n + 1 => (recordSuccesses cb n).record_success

lemma record_failure_closed_step (cb : CircuitBreaker) (now : ℚ)
    (hst : cb.state = .closed)
    (hlt : cb.failure_count + 1 < cb.failure_threshold) :
    cb.record_failure now = { cb with failure_count := cb.failure_count + 1 } := by
  have h : ¬ cb.failure_threshold ≤ cb.failure_count + 1 := by omega
  simp [CircuitBreaker.record_failure, hst, h]

lemma record_failure_closed_trip (cb : CircuitBreaker) (now : ℚ)
    (hst : cb.state = .closed)
    (hge : cb.failure_threshold ≤ cb.failure_count + 1) :
    cb.record_failure now =
      { cb with state := .opened, failure_count := cb.failure_count + 1,
                success_count := 0, last_failure_time := now } := by
  simp [CircuitBreaker.record_failure, hst, hge, CircuitBreaker.doOpen]

lemma record_success_half_open_step (cb : CircuitBreaker)
    (hst : cb.state = .half_open)
    (hlt : cb.success_count + 1 < cb.success_threshold) :
    cb.record_success = { cb with success_count := cb.success_count + 1 } := by
  have h : ¬ cb.success_threshold ≤ cb.success_count + 1 := by omega
  simp [CircuitBreaker.record_success, hst, h]

lemma record_success_half_open_close (cb : CircuitBreaker)
    (hst : cb.state = .half_open)
    (hge : cb.success_threshold ≤ cb.success_count + 1) :
    cb.record_success =
      { cb with state := .closed, failure_count := 0, success_count := 0 } := by
  simp [CircuitBreaker.record_success, hst, hge, CircuitBreaker.doClose]

lemma recordFailures_closed (cb : CircuitBreaker) (now : ℚ)
    (hst : cb.state = .closed) :
    ∀ k : ℕ, cb.failure_count + k < cb.failure_threshold →
      recordFailures cb now k = { cb with failure_count := cb.failure_count + k } := by
  intro k
  induction k with
  | zero => intro _; simp [recordFailures]
  | succ n ih =>
    intro hlt
    have hn : cb.failure_count + n < cb.failure_threshold := by omega
    have hrec := ih hn
    have hstep := record_failure_closed_step
      { cb with failure_count := cb.failure_count + n } now (by simpa using hst)
      (by simp; omega)
    simp only [recordFailures]
    rw [hrec, hstep]
    simp [Nat.add_assoc]

lemma recordFailures_opens (cb : CircuitBreaker) (now : ℚ)
    (hst : cb.state = .closed) (hcnt : cb.failure_count = 0)
    (hpos : 0 < cb.failure_threshold) :
    recordFailures cb now cb.failure_threshold =
      { cb with state := .opened, failure_count := cb.failure_threshold,
                success_count := 0, last_failure_time := now } := by
  obtain ⟨m, hm⟩ : ∃ m, cb.failure_threshold = m + 1 := ⟨cb.failure_threshold - 1, by omega⟩
  have hmlt : cb.failure_count + m < cb.failure_threshold := by omega
  have hrec := recordFailures_closed cb now hst m hmlt
  have hstep := record_failure_closed_trip
    { cb with failure_count := cb.failure_count + m } now (by simpa using hst)
    (by simp; omega)
  rw [hm]
  simp only [recordFailures]
  rw [hrec, hstep]
  simp [hcnt, hm]

lemma recordSuccesses_half_open (cb : CircuitBreaker)
    (hst : cb.state = .half_open) (hcnt : cb.success_count = 0) :
    ∀ j : ℕ, j < cb.success_threshold →
      recordSuccesses cb j = { cb with success_count := j } := by
  intro j
  induction j with
  | zero =>
    intro _
    simp only [recordSuccesses]
    rw [show (0 : ℕ) = cb.success_count from hcnt.symm]
  | succ n ih =>
    intro hlt
    have hn : n < cb.success_threshold := by omega
    have hrec := ih hn
    have hstep := record_success_half_open_step
      { cb with success_count := n } (by simpa using hst) (by simp; omega)
    simp only [recordSuccesses]
    rw [hrec, hstep]

lemma recordSuccesses_closes (cb : CircuitBreaker)
    (hst : cb.state = .half_open) (hcnt : cb.success_count = 0)
    (hpos : 0 < cb.success_threshold) :
    (recordSuccesses cb cb.success_threshold).state = .closed := by
  obtain ⟨m, hm⟩ : ∃ m, cb.success_threshold = m + 1 := ⟨cb.success_threshold - 1, by omega⟩
  have hmlt : m < cb.success_threshold := by omega
  have hrec := recordSuccesses_half_open cb hst hcnt m hmlt
  have hstep := record_success_half_open_close
    { cb with success_count := m } (by simpa using hst) (by simp; omega)
  rw [hm]
  simp only [recordSuccesses]
  rw [hrec, hstep]

/-- **C4.** The circuit breaker, starting `closed` with a clean failure
count, stays `closed` (and `can_execute` answers `true`) for fewer than
`failure_threshold` consecutive failures and moves to `opened` at
exactly `failure_threshold` of them; while `opened`, `can_execute`
before `recovery_timeout` has elapsed answers `false` and changes
nothing, and once `recovery_timeout` has elapsed a single `can_execute`
call answers `true` and half-opens the breaker; from `half_open`,
fewer than `success_threshold` consecutive successes stay `half_open`,
`success_threshold` of them close the breaker, any single failure
re-opens it, and `can_execute` answers `true`. -/
theorem circuit_breaker_lifecycle
    (cb cb2 : CircuitBreaker) (now t : ℚ) (k j : ℕ)
    (hstate : cb.state = .closed) (hcount : cb.failure_count = 0)
    (hk : k < cb.failure_threshold)
    (hstate2 : cb2.state = .half_open) (hsc : cb2.success_count = 0)
    (hj : j < cb2.success_threshold) :
    ((recordFailures cb now k).state = .closed ∧
      ((recordFailures cb now k).can_execute t).1 = true) ∧
    ((recordFailures cb now cb.failure_threshold).state = .opened ∧
      (recordFailures cb now cb.failure_threshold).last_failure_time = now) ∧
    (t - now < cb.recovery_timeout →
      (recordFailures cb now cb.failure_threshold).can_execute t =
        (false, recordFailures cb now cb.failure_threshold)) ∧
    (cb.recovery_timeout ≤ t - now →
      ((recordFailures cb now cb.failure_threshold).can_execute t).1 = true ∧
      ((recordFailures cb now cb.failure_threshold).can_execute t).2.state =
        .half_open) ∧
    ((recordSuccesses cb2 j).state = .half_open) ∧
    ((recordSuccesses cb2 cb2.success_threshold).state = .closed) ∧
    ((cb2.record_failure t).state = .opened) ∧
    (cb2.can_execute t).1 = true := by
  have hpos : 0 < cb.failure_threshold := by omega
  have hpos2 : 0 < cb2.success_threshold := by omega
  have hclosed := recordFailures_closed cb now hstate k (by omega)
  have hopens := recordFailures_opens cb now hstate hcount hpos
  have hhalf := recordSuccesses_half_open cb2 hstate2 hsc j hj
  refine ⟨⟨by rw [hclosed]; exact hstate, ?_⟩, ⟨by rw [hopens], by rw [hopens]⟩, ?_, ?_,
    by rw [hhalf]; exact hstate2, ?_, ?_, ?_⟩
  · rw [hclosed]; simp [CircuitBreaker.can_execute, hstate]
  · intro hlt
    rw [hopens]
    have h : ¬ cb.recovery_timeout ≤ t - now := not_le.mpr hlt
    simp [CircuitBreaker.can_execute, h]
  · intro hge
    rw [hopens]
    simp [CircuitBreaker.can_execute, hge, CircuitBreaker.doHalfOpen]
  · exact recordSuccesses_closes cb2 hstate2 hsc hpos2
  · simp [CircuitBreaker.record_failure, hstate2, CircuitBreaker.doOpen]
  · simp [CircuitBreaker.can_execute, hstate2]

/-- Witness for `circuit_breaker_lifecycle` at a concrete breaker:
`failure_threshold = 3`, `recovery_timeout = 30`, `success_threshold = 2`,
failures stamped at time `10`, probe at time `50`. -/
theorem circuit_breaker_lifecycle_witness :
    let cb : CircuitBreaker := ⟨3, 30, 2, .closed, 0, 0, 0⟩
    let cb2 : CircuitBreaker := ⟨3, 30, 2, .half_open, 0, 0, 0⟩
    ((recordFailures cb 10 2).state = .closed ∧
      ((recordFailures cb 10 2).can_execute 50).1 = true) ∧
    ((recordFailures cb 10 cb.failure_threshold).state = .opened ∧
      (recordFailures cb 10 cb.failure_threshold).last_failure_time = 10) ∧
    ((50 : ℚ) - 10 < cb.recovery_timeout →
      (recordFailures cb 10 cb.failure_threshold).can_execute 50 =
        (false, recordFailures cb 10 cb.failure_threshold)) ∧
    (cb.recovery_timeout ≤ (50 : ℚ) - 10 →
      ((recordFailures cb 10 cb.failure_threshold).can_execute 50).1 = true ∧
      ((recordFailures cb 10 cb.failure_threshold).can_execute 50).2.state =
        .half_open) ∧
    ((recordSuccesses cb2 1).state = .half_open) ∧
    ((recordSuccesses cb2 cb2.success_threshold).state = .closed) ∧
    ((cb2.record_failure 50).state = .opened) ∧
    (cb2.can_execute 50).1 = true :=
  circuit_breaker_lifecycle ⟨3, 30, 2, .closed, 0, 0, 0⟩
    ⟨3, 30, 2, .half_open, 0, 0, 0⟩ 10 50 2 1
    (by decide) (by decide) (by decide) (by decide) (by decide) (by decide)

/-! ## Traffic patterns (`patterns.py`) -/

/-- The numeric scheduling configuration of `RequestPattern`
(`patterns.py`).  The request-distribution fields (methods, weights,
payload templates) only decorate each dispatch with randomized request
data and never influence the emitted timestamps or rates, so the
embedding models the deterministic timestamp/rate skeleton of the
generated schedule. -/
structure RequestPattern where
  name : String
  duration_seconds : ℕ
  target_rps : ℤ
  ramp_start_rps : Option ℤ
  ramp_end_rps : Option ℤ
  burst_interval_seconds : Option ℚ
  burst_multiplier : Option ℚ

/-- The `while current_time < end_time` loop of
`ConstantTrafficGenerator.generate_schedule`: emit `current`, advance by
`interval`.  `fuel` bounds the recursion; `constantSchedule` supplies
enough of it to cover the whole range. -/
def constantScheduleAux : ℕ → ℚ → ℚ → ℚ → List ℚ
  | 0, _, _, _ => []
  | fuel + 1, current, endT, interval =>
    if current < endT then
      current :: constantScheduleAux fuel (current + interval) endT interval
    else []

/-- `ConstantTrafficGenerator.generate_schedule`: timestamps of the
dispatch events.  `request_interval = 1.0 / target_rps if target_rps > 0
else 1.0`. -/
def constantSchedule (start : ℚ) (p : RequestPattern) : List ℚ :=
  let endT := start + (p.duration_seconds : ℚ)
  let interval : ℚ := if 0 < p.target_rps then 1 / (p.target_rps : ℚ) else 1
  constantScheduleAux (p.target_rps.toNat * p.duration_seconds + p.duration_seconds + 1)
    start endT interval

lemma constantScheduleAux_eq (endT interval : ℚ) :
    ∀ (n fuel : ℕ) (c : ℚ), n ≤ fuel →
      (∀ k : ℕ, k < n → c + k * interval < endT) →
      endT ≤ c + n * interval →
      constantScheduleAux fuel c endT interval =
        (List.range n).map (fun k : ℕ => c + (k : ℚ) * interval) := by
  intro n
  induction n with
  | zero =>
    intro fuel c _ _ hend
    have hnotlt : ¬ c < endT := by
      simp only [Nat.cast_zero, zero_mul, add_zero] at hend
      exact not_lt.mpr hend
    cases fuel with
    | zero => simp [constantScheduleAux]
    | succ f => simp [constantScheduleAux, hnotlt]
  | succ m ih =>
    intro fuel c hfuel hlt hend
    obtain ⟨f, rfl⟩ : ∃ f, fuel = f + 1 := ⟨fuel - 1, by omega⟩
    have hc : c < endT := by simpa using hlt 0 (by omega)
    have hrec := ih f (c + interval) (by omega)
      (fun k hk => by
        have := hlt (k + 1) (by omega)
        push_cast at this ⊢
        linarith)
      (by push_cast at hend ⊢; linarith)
    simp only [constantScheduleAux, if_pos hc, hrec, List.range_succ_eq_map,
      List.map_cons, List.map_map]
    congr 1
    · push_cast
      ring
    · apply List.map_congr_left
      intro k _
      simp only [Function.comp_apply]
      push_cast
      ring

lemma constantSchedule_closed_form (start : ℚ) (p : RequestPattern)
    (h : 0 < p.target_rps) :
    constantSchedule start p =
      (List.range (p.target_rps.toNat * p.duration_seconds)).map
        (fun k : ℕ => start + (k : ℚ) * (1 / (p.target_rps : ℚ))) := by
  have hcast : ((p.target_rps.toNat : ℤ) : ℚ) = (p.target_rps : ℚ) := by
    rw [Int.toNat_of_nonneg (le_of_lt h)]
  have hpos : (0 : ℚ) < (p.target_rps : ℚ) := by exact_mod_cast h
  have hQ : ((p.target_rps.toNat : ℚ)) = (p.target_rps : ℚ) := by
    exact_mod_cast hcast
  unfold constantSchedule
  simp only [if_pos h]
  apply constantScheduleAux_eq
  · omega
  · intro k hk
    have hkq : (k : ℚ) < (p.target_rps : ℚ) * (p.duration_seconds : ℚ) := by
      have h0 : (k : ℚ) < ((p.target_rps.toNat * p.duration_seconds : ℕ) : ℚ) := by
        exact_mod_cast hk
      push_cast at h0
      rw [hQ] at h0
      exact h0
    have hlt : (k : ℚ) * (1 / (p.target_rps : ℚ)) < (p.duration_seconds : ℚ) := by
      rw [mul_one_div, div_lt_iff₀ hpos]
      linarith [hkq, mul_comm (p.target_rps : ℚ) (p.duration_seconds : ℚ)]
    linarith
  · have hD : ((p.target_rps.toNat * p.duration_seconds : ℕ) : ℚ) *
        (1 / (p.target_rps : ℚ)) = (p.duration_seconds : ℚ) := by
      push_cast
      rw [hQ, mul_one_div, mul_comm, mul_div_assoc, div_self (ne_of_gt hpos), mul_one]
    rw [hD]

/-- **C7.** For every Constant pattern with positive integer rate `R`
and duration `D`, the generated schedule has exactly `R * D` events
(`⌈R·D⌉` for integer inputs, hence within ±1 of it), consecutive
timestamps are exactly `1/R` apart (so they are strictly increasing),
and every timestamp lies within `[start, start + D]`. -/
theorem constant_schedule_spec (start : ℚ) (p : RequestPattern)
    (h : 0 < p.target_rps) :
    (constantSchedule start p).length = p.target_rps.toNat * p.duration_seconds ∧
    (constantSchedule start p).Chain'
      (fun a b => b = a + 1 / (p.target_rps : ℚ)) ∧
    (constantSchedule start p).Chain' (· < ·) ∧
    ∀ u ∈ constantSchedule start p,
      start ≤ u ∧ u ≤ start + (p.duration_seconds : ℚ) := by
  have hpos : (0 : ℚ) < (p.target_rps : ℚ) := by exact_mod_cast h
  have hiv : (0 : ℚ) < 1 / (p.target_rps : ℚ) := by positivity
  have hcf := constantSchedule_closed_form start p h
  set n := p.target_rps.toNat * p.duration_seconds with hn
  have hstep : (constantSchedule start p).Chain'
      (fun a b => b = a + 1 / (p.target_rps : ℚ)) := by
    rw [hcf, List.chain'_map]
    rw [List.chain'_iff_get]
    intro i hi
    simp only [List.length_range] at hi
    rw [List.get_range, List.get_range]
    push_cast
    ring
  refine ⟨by rw [hcf]; simp, hstep, ?_, ?_⟩
  · exact hstep.imp (fun a b hab => by rw [hab]; linarith)
  · intro u hu
    rw [hcf] at hu
    simp only [List.mem_map, List.mem_range] at hu
    obtain ⟨k, hk, rfl⟩ := hu
    constructor
    · have : (0 : ℚ) ≤ (k : ℚ) * (1 / (p.target_rps : ℚ)) := by positivity
      linarith
    · have hkn : (k : ℚ) ≤ (n : ℚ) := by exact_mod_cast le_of_lt hk
      have h1 : (k : ℚ) * (1 / (p.target_rps : ℚ)) ≤
          (n : ℚ) * (1 / (p.target_rps : ℚ)) := by
        apply mul_le_mul_of_nonneg_right hkn (le_of_lt hiv)
      have h2 : (n : ℚ) * (1 / (p.target_rps : ℚ)) = (p.duration_seconds : ℚ) := by
        rw [hn]
        push_cast
        rw [show ((p.target_rps.toNat : ℚ)) = (p.target_rps : ℚ) by
          exact_mod_cast congrArg (Int.cast : ℤ → ℚ) (Int.toNat_of_nonneg (le_of_lt h)),
          mul_one_div, mul_comm, mul_div_assoc, div_self (ne_of_gt hpos), mul_one]
      linarith

/-- Witness for `constant_schedule_spec`: the pattern
`target_rps = 2`, `duration_seconds = 3` started at time `0`. -/
theorem constant_schedule_spec_witness :
    let p : RequestPattern := ⟨"const", 3, 2, none, none, none, none⟩
    (constantSchedule 0 p).length = p.target_rps.toNat * p.duration_seconds ∧
    (constantSchedule 0 p).Chain'
      (fun a b => b = a + 1 / (p.target_rps : ℚ)) ∧
    (constantSchedule 0 p).Chain' (· < ·) ∧
    ∀ u ∈ constantSchedule 0 p,
      (0 : ℚ) ≤ u ∧ u ≤ 0 + (p.duration_seconds : ℚ) :=
  constant_schedule_spec 0 ⟨"const", 3, 2, none, none, none, none⟩ (by decide)

lemma constantSchedule_nonpos_closed_form (start : ℚ) (p : RequestPattern)
    (h : p.target_rps ≤ 0) :
    constantSchedule start p =
      (List.range p.duration_seconds).map (fun k : ℕ => start + (k : ℚ) * 1) := by
  have hnot : ¬ 0 < p.target_rps := not_lt.mpr h
  unfold constantSchedule
  simp only [if_neg hnot]
  apply constantScheduleAux_eq
  · omega
  · intro k hk
    have : (k : ℚ) < (p.duration_seconds : ℚ) := by exact_mod_cast hk
    linarith
  · simp

/-- **C10.** For a Constant pattern with `target_rps ≤ 0`, the schedule
is produced with the fixed fallback inter-arrival interval of one
second: it has exactly `duration_seconds` dispatches, one second apart,
and is non-empty whenever the duration is at least one second (no
division by zero occurs: the `1/target_rps` branch is never taken). -/
theorem constant_schedule_nonpos_rate (start : ℚ) (p : RequestPattern)
    (h : p.target_rps ≤ 0) (hd : 1 ≤ p.duration_seconds) :
    (constantSchedule start p).length = p.duration_seconds ∧
    constantSchedule start p ≠ [] ∧
    (constantSchedule start p).Chain' (fun a b => b = a + 1) ∧
    ∀ u ∈ constantSchedule start p,
      start ≤ u ∧ u ≤ start + (p.duration_seconds : ℚ) := by
  have hcf := constantSchedule_nonpos_closed_form start p h
  refine ⟨by rw [hcf]; simp, ?_, ?_, ?_⟩
  · rw [hcf]
    intro hempty
    have := congrArg List.length hempty
    simp at this
    omega
  · rw [hcf, List.chain'_map, List.chain'_iff_get]
    intro i hi
    simp only [List.length_range] at hi
    rw [List.get_range, List.get_range]
    push_cast
    ring
  · intro u hu
    rw [hcf] at hu
    simp only [List.mem_map, List.mem_range] at hu
    obtain ⟨k, hk, rfl⟩ := hu
    have hkq : (k : ℚ) ≤ (p.duration_seconds : ℚ) := by
      exact_mod_cast le_of_lt hk
    constructor
    · have : (0 : ℚ) ≤ (k : ℚ) := by positivity
      linarith
    · linarith

/-- Witness for `constant_schedule_nonpos_rate`: `target_rps = 0`,
`duration_seconds = 3`, started at time `0`. -/
theorem constant_schedule_nonpos_rate_witness :
    let p : RequestPattern := ⟨"idle", 3, 0, none, none, none, none⟩
    (constantSchedule 0 p).length = p.duration_seconds ∧
    constantSchedule 0 p ≠ [] ∧
    (constantSchedule 0 p).Chain' (fun a b => b = a + 1) ∧
    ∀ u ∈ constantSchedule 0 p,
      (0 : ℚ) ≤ u ∧ u ≤ 0 + (p.duration_seconds : ℚ) :=
  constant_schedule_nonpos_rate 0 ⟨"idle", 3, 0, none, none, none, none⟩
    (by decide) (by decide)

/-! ## Distributed coordinator (`coordinator.py`) -/

/-- `NodeRole` enum. -/
inductive NodeRole where
  | master
  | worker
  | observer
deriving DecidableEq

/-- `NodeStatus` enum. -/
inductive NodeStatus where
  | initializing
  | ready
  | running
  | paused
  | error
  | disconnected
deriving DecidableEq

/-- `NodeInfo` dataclass: the fields consumed by test dispatch
(capabilities and per-node metrics dictionaries are carried opaquely by
the source and are not needed here). -/
structure NodeInfo where
  node_id : String
  role : NodeRole
  status : NodeStatus
  address : String
  port : ℕ
  last_heartbeat : ℚ
  connection_time : ℚ
deriving DecidableEq

/-- `TestCommand` dataclass (the `test_config`/`pattern_config`
dictionaries are summarised by the scalar test configuration below). -/
structure TestCommand where
  command_id : String
  target_url : String
  assigned_nodes : List String
  total_rps : ℕ
  duration_seconds : ℕ
  start_time : ℚ
  sync_interval : ℚ
deriving DecidableEq

/-- The scalar part of the `test_config` dictionary read by
`start_distributed_test` (`target_rps` defaults to 100 and `duration`
to 60 via `.get` in the source; the embedding takes them as given). -/
structure TestConfig where
  target_url : String
  target_rps : ℕ
  duration : ℕ
deriving DecidableEq

/-- Coordinator state: the node table (insertion-ordered, like a Python
dict), the node ids with a live connection, and the active tests. -/
structure CoordState where
  nodes : List (String × NodeInfo)
  active_connections : List String
  active_tests : List (String × TestCommand)
deriving DecidableEq

/-- The `available_nodes` comprehension of `start_distributed_test`:
worker role, ready status, live connection. -/
def eligibleWorkers (st : CoordState) : List String :=
  (st.nodes.filter fun q =>
    decide (q.2.role = .worker) && decide (q.2.status = .ready) &&
      st.active_connections.contains q.1).map Prod.fst

/-- The per-node rate split inside `start_distributed_test`:
`rps_per_node = total // n`, `remaining = total % n`, the node at index
0 of the eligible list receives the remainder on top. -/
def distributeRps (total : ℕ) (nodes : List String) : List (String × ℕ) :=
  let per := total / nodes.length
  let rem := total % nodes.length
  nodes.enum.map fun q => (q.2, if q.1 = 0 then per + rem else per)

/-- `DistributedCoordinator.start_distributed_test`, embedded as a
state transformer.  The generated `uuid` test id and the clock are
inputs.  Returns the new coordinator state, the `start_test` command
messages sent (node id, assigned rps), and the test id or the raised
`ValueError`.  The `raise` happens before any mutation, so the error
branch returns the state unchanged with nothing sent. -/
def start_distributed_test (st : CoordState) (test_id : String) (now : ℚ)
    (cfg : TestConfig) :
    CoordState × List (String × ℕ) × Except String String :=
  let available := eligibleWorkers st
  if available.isEmpty then
    (st, [], .error "No worker nodes available for test execution")
  else
    let cmd : TestCommand :=
      { command_id := test_id
        target_url := cfg.target_url
        assigned_nodes := available
        total_rps := cfg.target_rps
        duration_seconds := cfg.duration
        start_time := now + 10
        sync_interval := 5 }
    ({ st with active_tests := st.active_tests ++ [(test_id, cmd)] },
      distributeRps cfg.target_rps available, .ok test_id)

/-- **C5 (counterexample).** The claim's worked example is wrong on the
code: splitting `total_rate = 107` over 4 workers gives the first node
`26 + 3 = 29`, i.e. `[29, 26, 26, 26]`, not `[27, 26, 26, 26]` (which
would only sum to 105). -/
theorem distribute_rps_107_not_27 :
    (distributeRps 107 ["n0", "n1", "n2", "n3"]).map Prod.snd ≠
      [27, 26, 26, 26] := by
  decide

lemma distributeRps_snd (total : ℕ) (nodes : List String) :
    (distributeRps total nodes).map Prod.snd =
      (List.range nodes.length).map
        (fun i => if i = 0 then total / nodes.length + total % nodes.length
                  else total / nodes.length) := by
  unfold distributeRps
  rw [List.map_map]
  have : (Prod.snd ∘ fun q : ℕ × String =>
      (q.2, if q.1 = 0 then total / nodes.length + total % nodes.length
            else total / nodes.length)) =
      (fun i => if i = 0 then total / nodes.length + total % nodes.length
                else total / nodes.length) ∘ Prod.fst := by
    funext q
    rfl
  rw [this, ← List.map_map, List.enum_map_fst]

lemma range_map_if_zero {α : Type} (n : ℕ) (a b : α) :
    (List.range (n + 1)).map (fun i => if i = 0 then a else b) =
      a :: List.replicate n b := by
  rw [List.range_succ_eq_map, List.map_cons, List.map_map]
  simp only [if_pos rfl]
  congr 1
  rw [List.eq_replicate_iff]
  refine ⟨by simp, ?_⟩
  intro x hx
  simp only [List.mem_map, List.mem_range, Function.comp_apply] at hx
  obtain ⟨i, _, rfl⟩ := hx
  simp

/-- **C5 (amended).** When a distributed test starts with total rate `T`
over a non-empty eligible-worker list of length `n`, the first node in
iteration order is assigned `T / n + T % n` and every other node
`T / n`; the assignments sum to exactly `T`.  The claim's worked
example must read `[29, 26, 26, 26]` for `T = 107, n = 4` (the spec's
`[27, 26, 26, 26]` is not what the code computes and does not sum to
107). -/
theorem distribute_rps_split (total : ℕ) (nodes : List String)
    (hne : nodes ≠ []) :
    (distributeRps total nodes).map Prod.snd =
      (total / nodes.length + total % nodes.length) ::
        List.replicate (nodes.length - 1) (total / nodes.length) ∧
    ((distributeRps total nodes).map Prod.snd).sum = total ∧
    (distributeRps 107 ["n0", "n1", "n2", "n3"]).map Prod.snd =
      [29, 26, 26, 26] := by
  obtain ⟨m, hm⟩ : ∃ m, nodes.length = m + 1 := by
    cases nodes with
    | nil => exact absurd rfl hne
    | cons x xs => exact ⟨xs.length, rfl⟩
  have hform : (distributeRps total nodes).map Prod.snd =
      (total / nodes.length + total % nodes.length) ::
        List.replicate (nodes.length - 1) (total / nodes.length) := by
    rw [distributeRps_snd, hm, range_map_if_zero]
    simp
  refine ⟨hform, ?_, by decide⟩
  rw [hform]
  simp only [List.sum_cons, List.sum_replicate, smul_eq_mul, hm, Nat.add_sub_cancel]
  have hdm := Nat.div_add_mod total (m + 1)
  have hsplit : (m + 1) * (total / (m + 1)) =
      m * (total / (m + 1)) + total / (m + 1) := by ring
  linarith

/-- Witness for `distribute_rps_split` at the spec's example input:
`T = 107` over four workers. -/
theorem distribute_rps_split_witness :
    (distributeRps 107 ["n0", "n1", "n2", "n3"]).map Prod.snd =
      (107 / 4 + 107 % 4) :: List.replicate 3 (107 / 4) ∧
    ((distributeRps 107 ["n0", "n1", "n2", "n3"]).map Prod.snd).sum = 107 ∧
    (distributeRps 107 ["n0", "n1", "n2", "n3"]).map Prod.snd =
      [29, 26, 26, 26] := by
  have h := distribute_rps_split 107 ["n0", "n1", "n2", "n3"] (by decide)
  simpa using h

/-- **C6.** `start_distributed_test` selects exactly the nodes whose
record has role `worker`, status `ready`, and a live connection; when
that set is empty it raises (`ValueError` in the source) and leaves the
coordinator unchanged — no `TestCommand` is stored and no command
message is sent. -/
theorem start_test_eligibility (st : CoordState) (test_id : String)
    (now : ℚ) (cfg : TestConfig) (x : String) :
    (x ∈ eligibleWorkers st ↔
      ∃ info : NodeInfo, (x, info) ∈ st.nodes ∧ info.role = .worker ∧
        info.status = .ready ∧ x ∈ st.active_connections) ∧
    (eligibleWorkers st = [] →
      start_distributed_test st test_id now cfg =
        (st, [], .error "No worker nodes available for test execution")) := by
  constructor
  · unfold eligibleWorkers
    simp only [List.mem_map, List.mem_filter, Bool.and_eq_true, decide_eq_true_eq,
      List.contains, List.elem_iff]
    constructor
    · rintro ⟨⟨a, info⟩, ⟨hmem, ⟨hrole, hstatus⟩, hconn⟩, rfl⟩
      exact ⟨info, hmem, hrole, hstatus, by simpa using hconn⟩
    · rintro ⟨info, hmem, hrole, hstatus, hconn⟩
      exact ⟨(x, info), ⟨hmem, ⟨hrole, hstatus⟩, by simpa using hconn⟩, rfl⟩
  · intro hempty
    unfold start_distributed_test
    rw [hempty]
    rfl

/-- Witness for `start_test_eligibility`: a coordinator with one ready
worker that has no live connection — the eligible set is empty, the
start is rejected and the state is untouched. -/
theorem start_test_eligibility_witness :
    let info : NodeInfo := ⟨"w1", .worker, .ready, "127.0.0.1", 9000, 0, 0⟩
    let st : CoordState := ⟨[("w1", info)], [], []⟩
    let cfg : TestConfig := ⟨"http://target", 107, 60⟩
    ("w1" ∈ eligibleWorkers st ↔
      ∃ i : NodeInfo, ("w1", i) ∈ st.nodes ∧ i.role = .worker ∧
        i.status = .ready ∧ "w1" ∈ st.active_connections) ∧
    start_distributed_test st "t1" 0 cfg =
      (st, [], .error "No worker nodes available for test execution") := by
  intro info st cfg
  have h := start_test_eligibility st "t1" 0 cfg "w1"
  exact ⟨h.1, h.2 (by decide)⟩

/-! ## SLO monitor (`metrics.py`) -/

/-- `ResponseTimeMetrics` dataclass. -/
structure ResponseTimeMetrics where
  count : ℕ
  sum : ℚ
  min : ℚ
  max : ℚ
  p50 : ℚ
  p95 : ℚ
  p99 : ℚ
  p99_9 : ℚ
deriving DecidableEq

/-- `RequestMetrics` dataclass: the fields `check_slos` and
`_get_metric_value` read (network/error-breakdown dictionaries are not
consumed by the SLO logic). -/
structure RequestMetrics where
  timestamp : ℚ
  total_requests : ℕ
  successful_requests : ℕ
  failed_requests : ℕ
  current_rps : ℚ
  response_times : ResponseTimeMetrics
deriving DecidableEq

/-- `SLO` dataclass. -/
structure SLO where
  name : String
  metric_name : String
  threshold : ℚ
  operator : String
  window_seconds : ℕ
  description : String
deriving DecidableEq

/-- One `(timestamp, value)` record of `SLOMonitor.metrics_history`. -/
structure MetricSample where
  timestamp : ℚ
  value : ℚ
deriving DecidableEq

/-- One recorded SLO violation (the dictionary built in `check_slos`). -/
structure Violation where
  slo_name : String
  metric_name : String
  actual_value : ℚ
  threshold : ℚ
  operator : String
  window_seconds : ℕ
  timestamp : ℚ
  severity : String
deriving DecidableEq

/-- `SLOMonitor._get_metric_value`; an unknown metric name raises
`ValueError` in the source (caught in `check_slos`), embedded as
`none`. -/
def getMetricValue (m : RequestMetrics) (metric_name : String) : Option ℚ :=
  if metric_name = "response_time_p95" then some m.response_times.p95
  else if metric_name = "response_time_p99" then some m.response_times.p99
  else if metric_name = "error_rate" then
    some (if 0 < m.total_requests then
      (m.failed_requests : ℚ) / (m.total_requests : ℚ) * 100 else 0)
  else if metric_name = "current_rps" then some m.current_rps
  else if metric_name = "avg_response_time" then
    some (if 0 < m.response_times.count then
      m.response_times.sum / (m.response_times.count : ℚ) else 0)
  else none

/-- `SLOMonitor._check_threshold`: the source reports a violation when
`value <op> threshold` HOLDS (an unknown operator raises, embedded as
`none`). -/
def checkThreshold (value threshold : ℚ) (op : String) : Option Bool :=
  if op = "lt" then some (value < threshold)
  else if op = "le" then some (value ≤ threshold)
  else if op = "gt" then some (threshold < value)
  else if op = "ge" then some (threshold ≤ value)
  else if op = "eq" then some (|value - threshold| < 1 / 1000)
  else none

/-- Severity from the ratio (`float('inf')`, reached when the
denominator is not positive, compares `≥ 2.0`, hence `critical`). -/
def sevFromRatio (r : ℚ) : String :=
  if 2 ≤ r then "critical"
  else if 3 / 2 ≤ r then "high"
  else if 6 / 5 ≤ r then "medium"
  else "low"

/-- `SLOMonitor._calculate_severity`. -/
def calculateSeverity (value threshold : ℚ) (op : String) : String :=
  if op = "lt" ∨ op = "le" then
    if 0 < value then sevFromRatio (threshold / value) else "critical"
  else
    if 0 < threshold then sevFromRatio (value / threshold) else "critical"

/-- Per-SLO monitoring state: the SLO plus its
`metrics_history[slo_name]` deque (`maxlen = 10000`). -/
structure SLOEntry where
  slo : SLO
  history : List MetricSample
deriving DecidableEq

/-- `SLOMonitor` state: the monitored SLOs with their histories
(insertion-ordered like the source's dicts) and the accumulated
violations. -/
structure SLOMonitorState where
  entries : List SLOEntry
  violations : List Violation
deriving DecidableEq

/-- The body of `check_slos`'s per-SLO loop: extract the metric (an
unknown name raises before the history is touched), append to the
history, filter to the window, require at least 2 points, average,
check the threshold, and build the violation record. -/
def checkOneSlo (m : RequestMetrics) (entry : SLOEntry) :
    SLOEntry × Option Violation :=
  match getMetricValue m entry.slo.metric_name with
  | none => (entry, none)
  | some v =>
    let hist := pushBounded 10000 entry.history ⟨m.timestamp, v⟩
    let entry := { entry with history := hist }
    let window := hist.filter fun pt =>
      decide (m.timestamp - pt.timestamp ≤ (entry.slo.window_seconds : ℚ))
    if window.length < 2 then (entry, none)
    else
      let avg := (window.map MetricSample.value).sum / (window.length : ℚ)
      match checkThreshold avg entry.slo.threshold entry.slo.operator with
      | some true =>
        (entry, some
          { slo_name := entry.slo.name
            metric_name := entry.slo.metric_name
            actual_value := avg
            threshold := entry.slo.threshold
            operator := entry.slo.operator
            window_seconds := entry.slo.window_seconds
            timestamp := m.timestamp
            severity := calculateSeverity avg entry.slo.threshold entry.slo.operator })
      | _ => (entry, none)

/-- `SLOMonitor.check_slos`: run every SLO against the current metrics,
returning the updated monitor and the violations found this call. -/
def check_slos (st : SLOMonitorState) (m : RequestMetrics) :
    SLOMonitorState × List Violation :=
  let stepped := st.entries.map (checkOneSlo m)
  let found := stepped.filterMap Prod.snd
  ({ entries := stepped.map Prod.fst, violations := st.violations ++ found },
    found)

/-- The `RequestMetrics` snapshot used by the C2 scenario: a p95 of
600 ms observed at time `t`. -/
def p95Snapshot (t : ℚ) : RequestMetrics :=
  { timestamp := t
    total_requests := 10
    successful_requests := 10
    failed_requests := 0
    current_rps := 10
    response_times := ⟨10, 5000, 400, 650, 480, 600, 640, 650⟩ }

/-- The C2 scenario's monitor: one SLO on `response_time_p95`,
threshold 500, operator `lt`, 60-second window. -/
def p95Monitor : SLOMonitorState :=
  { entries := [⟨⟨"response_time_p95", "response_time_p95", 500, "lt", 60,
      "p95 should be under 500ms"⟩, []⟩]
    violations := [] }

/-- **C2 (divergence witness).** Two windowed samples of 600 against an
SLO `response_time_p95 < 500` produce NO violation: `_check_threshold`
treats the operator as the violation condition (violation iff
`avg < threshold`), so an average of 600 with operator `lt` and
threshold 500 does not register, contradicting the claim — and the
source's own `create_standard_slos` descriptions ("should be under
target" with operator `lt`), which read the operator as the desired
condition. -/
theorem slo_600_lt_500_no_violation :
    (check_slos (check_slos p95Monitor (p95Snapshot 0)).1 (p95Snapshot 1)).2 =
      [] ∧
    (check_slos (check_slos p95Monitor (p95Snapshot 0)).1
      (p95Snapshot 1)).1.violations = [] := by
  norm_num [check_slos, checkOneSlo, p95Monitor, p95Snapshot, getMetricValue,
    pushBounded, checkThreshold, calculateSeverity, sevFromRatio]

/-! ## IntelligentThrottle (`throttle.py`) -/

/-- `ThrottleState` enum. -/
inductive ThrottleState where
  | normal
  | backing_off
  | circuit_open
  | recovery
  | emergency_stop
deriving DecidableEq

/-- `ThrottleConfig` dataclass (numeric fields the embedded operations
read; the strategy selector is fixed to the default
`BackoffStrategy.EXPONENTIAL`, the calculator `_create_backoff_calculator`
builds when no other strategy is configured). -/
structure ThrottleConfig where
  max_rps : ℚ
  min_rps : ℚ
  initial_rps : ℚ
  error_rate_threshold : ℚ
  response_time_threshold : ℚ
  backoff_multiplier : ℚ
  backoff_max_delay : ℚ
  circuit_failure_threshold : ℕ
  circuit_timeout : ℚ
  health_check_interval : ℚ
  health_check_window : ℕ
  absolute_max_rps : ℚ
  emergency_stop_error_rate : ℚ
  performance_target_p95 : ℚ
deriving DecidableEq

/-- `ServerHealthMetrics` dataclass. -/
structure ServerHealthMetrics where
  timestamp : ℚ
  response_time_avg : ℚ
  response_time_p95 : ℚ
  error_rate : ℚ
  connection_errors : ℕ
  successful_requests : ℕ
  failed_requests : ℕ
  current_rps : ℚ
deriving DecidableEq

/-- `ExponentialBackoffCalculator.calculate_delay`:
`min(base * multiplier^attempt, max_delay)`. -/
def expCalculateDelay (multiplier max_delay : ℚ) (attempt : ℕ)
    (base_delay : ℚ) : ℚ :=
  min (base_delay * multiplier ^ attempt) max_delay

/-- `ExponentialBackoffCalculator.calculate_new_rps`. -/
def expCalculateNewRps (multiplier : ℚ) (current_rps : ℚ)
    (metrics : ServerHealthMetrics) : ℚ :=
  if 10 < metrics.error_rate then max (current_rps / multiplier) 1
  else if 5000 < metrics.response_time_p95 then max (current_rps * (7 / 10)) 1
  else current_rps

/-- The source's `error_type and 'connection' in error_type.lower()`
test. -/
def isConnectionError (err : Option String) : Bool :=
  match err with
  | none => false
  | some s => 2 ≤ (s.toLower.splitOn "connection").length

/-- Mutable state of `class IntelligentThrottle`. -/
structure IntelligentThrottle where
  config : ThrottleConfig
  current_rps : ℚ
  target_rps : ℚ
  state : ThrottleState
  backoff_attempt : ℕ
  last_backoff_time : ℚ
  health_metrics_history : List ServerHealthMetrics
  last_health_check : ℚ
  circuit_breaker : CircuitBreaker
  request_times : List ℚ
  last_request_time : ℚ
  emergency_stop_triggered : Bool
deriving DecidableEq

namespace IntelligentThrottle

/-- `IntelligentThrottle.__init__` (constructed at clock time `t0`; the
nested `CircuitBreaker` keeps its default `success_threshold = 3`). -/
def init (config : ThrottleConfig) (t0 : ℚ) : IntelligentThrottle :=
  { config := config
    current_rps := config.initial_rps
    target_rps := config.initial_rps
    state := .normal
    backoff_attempt := 0
    last_backoff_time := 0
    health_metrics_history := []
    last_health_check := t0
    circuit_breaker :=
      { failure_threshold := config.circuit_failure_threshold
        recovery_timeout := config.circuit_timeout
        success_threshold := 3
        state := .closed
        failure_count := 0
        success_count := 0
        last_failure_time := 0 }
    request_times := []
    last_request_time := 0
    emergency_stop_triggered := false }

/-- `IntelligentThrottle.should_make_request`, returning the updated
throttle and the `(should_make_request, delay_seconds)` pair. -/
def should_make_request (th : IntelligentThrottle) (now : ℚ) :
    IntelligentThrottle × Bool × Option ℚ :=
  let r := th.circuit_breaker.can_execute now
  let th := { th with circuit_breaker := r.2 }
  if r.1 = false then (th, false, some th.config.circuit_timeout)
  else if th.emergency_stop_triggered then (th, false, none)
  else if th.state = .circuit_open then (th, false, some th.config.circuit_timeout)
  else
    let th :=
      if th.state = .backing_off then
        let backoff_delay := expCalculateDelay th.config.backoff_multiplier
          th.config.backoff_max_delay th.backoff_attempt 1
        if backoff_delay ≤ now - th.last_backoff_time then
          { th with state := .recovery, backoff_attempt := 0 }
        else th
      else th
    if th.current_rps ≤ 0 then (th, false, some 1)
    else
      let target_interval := 1 / th.current_rps
      if 0 < th.last_request_time ∧ now - th.last_request_time < target_interval
      then
        (th, false, some (target_interval - (now - th.last_request_time)))
      else
        ({ th with last_request_time := now,
                   request_times := pushBounded 1000 th.request_times now },
          true, none)

/-- The approximate `ServerHealthMetrics` snapshot that
`_collect_health_metrics` appends: the simplified error rate is `10.0`
for `status ≥ 400`, else `0.0`; p95 is approximated as `1.2 ×` the
latency; the observed rps averages the request timestamps of the last
10 seconds. -/
def newHealthMetric (request_times : List ℚ) (now rt : ℚ) (status : ℕ)
    (err : Option String) : ServerHealthMetrics :=
  let recent := request_times.filter fun t0 => decide (now - t0 ≤ 10)
  { timestamp := now
    response_time_avg := rt
    response_time_p95 := rt * (6 / 5)
    error_rate := if 400 ≤ status then 10 else 0
    connection_errors := if isConnectionError err then 1 else 0
    successful_requests := if 200 ≤ status ∧ status < 400 then 1 else 0
    failed_requests := if 400 ≤ status then 1 else 0
    current_rps := if recent.isEmpty then 0 else (recent.length : ℚ) / 10 }

/-- `IntelligentThrottle._collect_health_metrics`. -/
def collect_health_metrics (th : IntelligentThrottle) (now rt : ℚ)
    (status : ℕ) (err : Option String) : IntelligentThrottle :=
  let m := newHealthMetric th.request_times now rt status err
  { th with health_metrics_history :=
      pushBounded th.config.health_check_window th.health_metrics_history m }

/-- `IntelligentThrottle._should_trigger_backoff`. -/
def should_trigger_backoff (cfg : ThrottleConfig) (rt : ℚ) (status : ℕ)
    (err : Option String) : Bool :=
  decide (cfg.response_time_threshold < rt) || isConnectionError err ||
    decide (500 ≤ status)

/-- `IntelligentThrottle._trigger_backoff`. -/
def trigger_backoff (th : IntelligentThrottle) (now : ℚ) : IntelligentThrottle :=
  if th.state ≠ .backing_off then
    { th with state := .backing_off
              backoff_attempt := th.backoff_attempt + 1
              last_backoff_time := now
              current_rps := max (th.current_rps * (1 / 2)) th.config.min_rps }
  else th

/-- `IntelligentThrottle._trigger_emergency_stop`. -/
def trigger_emergency_stop (th : IntelligentThrottle) : IntelligentThrottle :=
  { th with emergency_stop_triggered := true
            state := .emergency_stop
            current_rps := 0 }

/-- `IntelligentThrottle._assess_server_health` (with the default
exponential back-off calculator for the `NORMAL`-state adjustment). -/
def assess_server_health (th : IntelligentThrottle) : IntelligentThrottle :=
  if th.health_metrics_history.length < 3 then th
  else
    let recent := lastN 5 th.health_metrics_history
    let avg_response_time := listMean (recent.map ServerHealthMetrics.response_time_avg)
    let avg_error_rate := listMean (recent.map ServerHealthMetrics.error_rate)
    if th.config.emergency_stop_error_rate < avg_error_rate then
      th.trigger_emergency_stop
    else
      match pyLast recent with
      | none => th
      | some latest =>
        if th.state = .normal then
          let new_rps := expCalculateNewRps th.config.backoff_multiplier
            th.current_rps latest
          let new_rps := max th.config.min_rps (min new_rps th.config.max_rps)
          let new_rps := min new_rps th.config.absolute_max_rps
          { th with current_rps := new_rps }
        else if th.state = .recovery then
          if avg_error_rate < 2 ∧ avg_response_time < th.config.performance_target_p95
          then
            let new_rps := min (th.current_rps * (11 / 10)) th.target_rps
            let th := { th with current_rps := new_rps }
            if th.target_rps * (9 / 10) ≤ new_rps then { th with state := .normal }
            else th
          else th
        else th

/-- `IntelligentThrottle.record_request_result`. -/
def record_request_result (th : IntelligentThrottle) (now rt : ℚ)
    (status : ℕ) (err : Option String) : IntelligentThrottle :=
  let cb := if 200 ≤ status ∧ status < 400 then th.circuit_breaker.record_success
            else th.circuit_breaker.record_failure now
  let th := { th with circuit_breaker := cb }
  let th := th.collect_health_metrics now rt status err
  let th := if should_trigger_backoff th.config rt status err
            then th.trigger_backoff now else th
  if th.config.health_check_interval ≤ now - th.last_health_check then
    { th.assess_server_health with last_health_check := now }
  else th

/-- `IntelligentThrottle.set_target_rps`. -/
def set_target_rps (th : IntelligentThrottle) (rps : ℚ) : IntelligentThrottle :=
  let rps := max th.config.min_rps (min rps th.config.max_rps)
  let rps := min rps th.config.absolute_max_rps
  let th := { th with target_rps := rps }
  if th.emergency_stop_triggered = false ∧ th.state = .normal then
    { th with current_rps := rps }
  else th

/-- `IntelligentThrottle.reset_emergency_stop`. -/
def reset_emergency_stop (th : IntelligentThrottle) : IntelligentThrottle :=
  if th.emergency_stop_triggered then
    { th with emergency_stop_triggered := false
              state := .recovery
              current_rps := th.config.min_rps
              backoff_attempt := 0 }
  else th

end IntelligentThrottle

/-- Source default `ThrottleConfig()` values. -/
def defaultThrottleConfig : ThrottleConfig :=
  { max_rps := 100
    min_rps := 1
    initial_rps := 10
    error_rate_threshold := 5
    response_time_threshold := 5000
    backoff_multiplier := 2
    backoff_max_delay := 60
    circuit_failure_threshold := 10
    circuit_timeout := 30
    health_check_interval := 5
    health_check_window := 20
    absolute_max_rps := 1000
    emergency_stop_error_rate := 50
    performance_target_p95 := 2000 }

lemma collect_flag (th : IntelligentThrottle) (now rt : ℚ) (status : ℕ)
    (err : Option String) :
    (th.collect_health_metrics now rt status err).emergency_stop_triggered =
      th.emergency_stop_triggered := by
  simp [IntelligentThrottle.collect_health_metrics]

lemma trigger_backoff_flag (th : IntelligentThrottle) (now : ℚ) :
    (th.trigger_backoff now).emergency_stop_triggered =
      th.emergency_stop_triggered := by
  rw [IntelligentThrottle.trigger_backoff]
  split <;> rfl

lemma trigger_emergency_stop_flag (th : IntelligentThrottle) :
    th.trigger_emergency_stop.emergency_stop_triggered = true := rfl

lemma assess_flag (th : IntelligentThrottle)
    (h : th.emergency_stop_triggered = true) :
    th.assess_server_health.emergency_stop_triggered = true := by
  simp only [IntelligentThrottle.assess_server_health]
  split
  · exact h
  · split
    · exact trigger_emergency_stop_flag th
    · split
      · exact h
      · split
        · exact h
        · split
          · split
            · split <;> exact h
            · exact h
          · exact h

lemma record_request_result_flag (th : IntelligentThrottle) (now rt : ℚ)
    (status : ℕ) (err : Option String)
    (h : th.emergency_stop_triggered = true) :
    (th.record_request_result now rt status err).emergency_stop_triggered =
      true := by
  simp only [IntelligentThrottle.record_request_result]
  split_ifs <;>
    first
      | (rw [trigger_backoff_flag, collect_flag]; exact h)
      | (rw [collect_flag]; exact h)
      | (refine assess_flag _ ?_
         first
           | (rw [trigger_backoff_flag, collect_flag]; exact h)
           | (rw [collect_flag]; exact h))

/-- **C1 (amended).** While `emergency_stop_triggered` is set:
`should_make_request` answers `allowed = false` and leaves the
`ThrottleState`, `current_rps` and the emergency flag unchanged;
`set_target_rps` likewise only updates `target_rps`; and
`record_request_result` never clears the flag (so dispatching stays
blocked until `reset_emergency_stop`).  The claim's further assertion —
that no operation moves the state away from `EmergencyStop` or makes
`current_rps` nonzero — is refuted by
`emergency_stop_not_terminal`: `record_request_result` with a
backoff-triggering result moves the state to `BackingOff` and raises
`current_rps` to `min_rps`. -/
theorem emergency_stop_latch (th : IntelligentThrottle)
    (now rt r : ℚ) (status : ℕ) (err : Option String)
    (hes : th.emergency_stop_triggered = true) :
    ((th.should_make_request now).2.1 = false ∧
      (th.should_make_request now).1.state = th.state ∧
      (th.should_make_request now).1.current_rps = th.current_rps ∧
      (th.should_make_request now).1.emergency_stop_triggered = true) ∧
    ((th.set_target_rps r).state = th.state ∧
      (th.set_target_rps r).current_rps = th.current_rps ∧
      (th.set_target_rps r).emergency_stop_triggered = true) ∧
    (th.record_request_result now rt status err).emergency_stop_triggered =
      true := by
  refine ⟨?_, ?_, record_request_result_flag th now rt status err hes⟩
  · simp only [IntelligentThrottle.should_make_request]
    by_cases h1 : (th.circuit_breaker.can_execute now).1 = false
    · simp [h1, hes]
    · simp [h1, hes]
  · simp [IntelligentThrottle.set_target_rps, hes]

/-- A concrete `IntelligentThrottle` state with the emergency stop
latched (as left by `_trigger_emergency_stop`). -/
def esState : IntelligentThrottle :=
  { config := defaultThrottleConfig
    current_rps := 0
    target_rps := 10
    state := .emergency_stop
    backoff_attempt := 0
    last_backoff_time := 0
    health_metrics_history := []
    last_health_check := 12
    circuit_breaker := ⟨10, 30, 3, .closed, 3, 0, 0⟩
    request_times := []
    last_request_time := 0
    emergency_stop_triggered := true }

/-- Witness for `emergency_stop_latch` at the concrete latched state
`esState`, probed at time 20 with a successful result and a
`set_target_rps 50` request. -/
theorem emergency_stop_latch_witness :
    ((esState.should_make_request 20).2.1 = false ∧
      (esState.should_make_request 20).1.state = esState.state ∧
      (esState.should_make_request 20).1.current_rps = esState.current_rps ∧
      (esState.should_make_request 20).1.emergency_stop_triggered = true) ∧
    ((esState.set_target_rps 50).state = esState.state ∧
      (esState.set_target_rps 50).current_rps = esState.current_rps ∧
      (esState.set_target_rps 50).emergency_stop_triggered = true) ∧
    (esState.record_request_result 20 100 200 none).emergency_stop_triggered =
      true :=
  emergency_stop_latch esState 20 100 50 200 none rfl

/-- The rolling health history after `_collect_health_metrics` appends
the snapshot of one request result. -/
def postHistory (th : IntelligentThrottle) (now rt : ℚ) (status : ℕ)
    (err : Option String) : List ServerHealthMetrics :=
  pushBounded th.config.health_check_window th.health_metrics_history
    (IntelligentThrottle.newHealthMetric th.request_times now rt status err)

lemma postHistory_cb (th : IntelligentThrottle) (cb : CircuitBreaker)
    (now rt : ℚ) (status : ℕ) (err : Option String) :
    postHistory { th with circuit_breaker := cb } now rt status err =
      postHistory th now rt status err := rfl

lemma collect_eq (th : IntelligentThrottle) (now rt : ℚ) (status : ℕ)
    (err : Option String) :
    th.collect_health_metrics now rt status err =
      { th with health_metrics_history := postHistory th now rt status err } :=
  rfl

lemma assess_short (th : IntelligentThrottle)
    (hlen : th.health_metrics_history.length < 3) :
    th.assess_server_health = th := by
  simp only [IntelligentThrottle.assess_server_health, if_pos hlen]

lemma assess_emergency (th : IntelligentThrottle)
    (hlen : ¬ th.health_metrics_history.length < 3)
    (hgt : th.config.emergency_stop_error_rate <
      listMean ((lastN 5 th.health_metrics_history).map
        ServerHealthMetrics.error_rate)) :
    th.assess_server_health = th.trigger_emergency_stop := by
  simp only [IntelligentThrottle.assess_server_health, if_neg hlen, if_pos hgt]

/-- A failed request (no 2xx/3xx) that trips no immediate backoff,
recorded while the periodic health check is due but fewer than 3
snapshots exist: only the breaker, the history and the check clock
move. -/
lemma record_fail_assess_short (th : IntelligentThrottle) (now rt : ℚ)
    (status : ℕ) (err : Option String)
    (hfail : ¬ (200 ≤ status ∧ status < 400))
    (htrig : IntelligentThrottle.should_trigger_backoff th.config rt status err
      = false)
    (hint : th.config.health_check_interval ≤ now - th.last_health_check)
    (hlen : (postHistory th now rt status err).length < 3) :
    th.record_request_result now rt status err =
      { th with circuit_breaker := th.circuit_breaker.record_failure now
                health_metrics_history := postHistory th now rt status err
                last_health_check := now } := by
  simp only [IntelligentThrottle.record_request_result, collect_eq,
    postHistory_cb]
  simp [hfail, htrig, hint, assess_short, hlen]

/-- A failed, non-backoff result recorded between health checks: only
the breaker and the history move. -/
lemma record_fail_no_assess (th : IntelligentThrottle) (now rt : ℚ)
    (status : ℕ) (err : Option String)
    (hfail : ¬ (200 ≤ status ∧ status < 400))
    (htrig : IntelligentThrottle.should_trigger_backoff th.config rt status err
      = false)
    (hint : ¬ th.config.health_check_interval ≤ now - th.last_health_check) :
    th.record_request_result now rt status err =
      { th with circuit_breaker := th.circuit_breaker.record_failure now
                health_metrics_history := postHistory th now rt status err } := by
  simp only [IntelligentThrottle.record_request_result, collect_eq,
    postHistory_cb]
  simp [hfail, htrig, hint]

/-- A failed, non-backoff result recorded when the health check is due,
at least 3 snapshots exist and the windowed mean error rate exceeds
`emergency_stop_error_rate`: the emergency stop is forced. -/
lemma record_fail_emergency (th : IntelligentThrottle) (now rt : ℚ)
    (status : ℕ) (err : Option String)
    (hfail : ¬ (200 ≤ status ∧ status < 400))
    (htrig : IntelligentThrottle.should_trigger_backoff th.config rt status err
      = false)
    (hint : th.config.health_check_interval ≤ now - th.last_health_check)
    (hlen : ¬ (postHistory th now rt status err).length < 3)
    (hgt : th.config.emergency_stop_error_rate <
      listMean ((lastN 5 (postHistory th now rt status err)).map
        ServerHealthMetrics.error_rate)) :
    th.record_request_result now rt status err =
      { th with circuit_breaker := th.circuit_breaker.record_failure now
                health_metrics_history := postHistory th now rt status err
                emergency_stop_triggered := true
                state := .emergency_stop
                current_rps := 0
                last_health_check := now } := by
  simp only [IntelligentThrottle.record_request_result, collect_eq,
    postHistory_cb]
  simp [hfail, htrig, hint, assess_emergency, hlen, hgt,
    IntelligentThrottle.trigger_emergency_stop]

/-- A failed result that trips the immediate backoff while the throttle
is not already backing off, recorded between health checks: the state
becomes `BackingOff`, the attempt counter bumps and the rate halves
(floored at `min_rps`). -/
lemma record_fail_backoff_no_assess (th : IntelligentThrottle) (now rt : ℚ)
    (status : ℕ) (err : Option String)
    (hfail : ¬ (200 ≤ status ∧ status < 400))
    (htrig : IntelligentThrottle.should_trigger_backoff th.config rt status err
      = true)
    (hstate : ¬ th.state = ThrottleState.backing_off)
    (hint : ¬ th.config.health_check_interval ≤ now - th.last_health_check) :
    th.record_request_result now rt status err =
      { th with circuit_breaker := th.circuit_breaker.record_failure now
                health_metrics_history := postHistory th now rt status err
                state := .backing_off
                backoff_attempt := th.backoff_attempt + 1
                last_backoff_time := now
                current_rps := max (th.current_rps * (1 / 2)) th.config.min_rps } := by
  simp only [IntelligentThrottle.record_request_result, collect_eq,
    postHistory_cb]
  simp [hfail, htrig, hint, IntelligentThrottle.trigger_backoff, hstate]

/-- The throttle configuration of the emergency-stop scenarios: source
defaults except `emergency_stop_error_rate = 5` (each failed request
contributes an error-rate sample of 10, so a run of failures exceeds
the threshold). -/
def esConfig : ThrottleConfig :=
  { defaultThrottleConfig with emergency_stop_error_rate := 5 }

/-- Three failed requests (status 404) at times 6, 7 and 12: the
periodic health assessment at time 12 sees three error-rate samples of
10 > 5 and forces the emergency stop. -/
def esThrottle3 : IntelligentThrottle :=
  (((IntelligentThrottle.init esConfig 0).record_request_result 6 100 404
      none).record_request_result 7 100 404
      none).record_request_result 12 100 404 none

/-- The health snapshot collected for a failed (404) probe with latency
100 ms at time `t` while `request_times` is empty. -/
def m404 (t : ℚ) : ServerHealthMetrics :=
  { timestamp := t
    response_time_avg := 100
    response_time_p95 := 120
    error_rate := 10
    connection_errors := 0
    successful_requests := 0
    failed_requests := 1
    current_rps := 0 }

/-- The emergency-stop scenario state after the 404s at times 6 and 7. -/
def esT2 : IntelligentThrottle :=
  { config := esConfig
    current_rps := 10
    target_rps := 10
    state := .normal
    backoff_attempt := 0
    last_backoff_time := 0
    health_metrics_history := [m404 6, m404 7]
    last_health_check := 6
    circuit_breaker := ⟨10, 30, 3, .closed, 2, 0, 0⟩
    request_times := []
    last_request_time := 0
    emergency_stop_triggered := false }

/-- The emergency-stop scenario state after the third 404 at time 12:
the health assessment has latched the emergency stop. -/
def esT3 : IntelligentThrottle :=
  { config := esConfig
    current_rps := 0
    target_rps := 10
    state := .emergency_stop
    backoff_attempt := 0
    last_backoff_time := 0
    health_metrics_history := [m404 6, m404 7, m404 12]
    last_health_check := 12
    circuit_breaker := ⟨10, 30, 3, .closed, 3, 0, 0⟩
    request_times := []
    last_request_time := 0
    emergency_stop_triggered := true }

lemma esThrottle3_eq : esThrottle3 = esT3 := by
  have e1 : (IntelligentThrottle.init esConfig 0).record_request_result
      6 100 404 none =
      { config := esConfig, current_rps := 10, target_rps := 10,
        state := .normal, backoff_attempt := 0, last_backoff_time := 0,
        health_metrics_history := [m404 6], last_health_check := 6,
        circuit_breaker := ⟨10, 30, 3, .closed, 1, 0, 0⟩,
        request_times := [], last_request_time := 0,
        emergency_stop_triggered := false } := by
    rw [record_fail_assess_short _ 6 100 404 none (by norm_num)
      (by norm_num [IntelligentThrottle.should_trigger_backoff,
        isConnectionError, IntelligentThrottle.init, esConfig,
        defaultThrottleConfig])
      (by norm_num [IntelligentThrottle.init, esConfig, defaultThrottleConfig])
      (by norm_num [postHistory, pushBounded, IntelligentThrottle.newHealthMetric,
        IntelligentThrottle.init, esConfig, defaultThrottleConfig])]
    simp [IntelligentThrottle.init, esConfig, defaultThrottleConfig,
      postHistory, pushBounded, IntelligentThrottle.newHealthMetric, isConnectionError,
      CircuitBreaker.record_failure, m404]
    norm_num
  have e2 : ((IntelligentThrottle.init esConfig 0).record_request_result
      6 100 404 none).record_request_result 7 100 404 none = esT2 := by
    rw [e1]
    rw [record_fail_no_assess _ 7 100 404 none (by norm_num)
      (by norm_num [IntelligentThrottle.should_trigger_backoff,
        isConnectionError, esConfig, defaultThrottleConfig])
      (by norm_num [esConfig, defaultThrottleConfig])]
    simp [esT2, esConfig, defaultThrottleConfig, postHistory, pushBounded,
      IntelligentThrottle.newHealthMetric, isConnectionError, CircuitBreaker.record_failure, m404]
    norm_num
  have e3 : esT2.record_request_result 12 100 404 none = esT3 := by
    rw [record_fail_emergency _ 12 100 404 none (by norm_num)
      (by norm_num [IntelligentThrottle.should_trigger_backoff,
        isConnectionError, esT2, esConfig, defaultThrottleConfig])
      (by norm_num [esT2, esConfig, defaultThrottleConfig])
      (by norm_num [postHistory, pushBounded, IntelligentThrottle.newHealthMetric, esT2,
        esConfig, defaultThrottleConfig])
      (by norm_num [postHistory, pushBounded, IntelligentThrottle.newHealthMetric, lastN,
        listMean, esT2, esConfig, defaultThrottleConfig, m404])]
    simp [esT2, esT3, esConfig, defaultThrottleConfig, postHistory,
      pushBounded, IntelligentThrottle.newHealthMetric, isConnectionError,
      CircuitBreaker.record_failure, m404]
    norm_num
  rw [esThrottle3, e2, e3]

/-- **C1 (counterexample).** After the emergency stop has been forced
(state `EmergencyStop`, `current_rps = 0`), recording one more result
that trips the immediate backoff (latency 6000 > threshold 5000, status
500) moves the state to `BackingOff` and sets `current_rps = min_rps =
1 ≠ 0` — `_trigger_backoff` does not check for the emergency stop, so
`EmergencyStop` is not left intact by every subsequent operation. -/
theorem emergency_stop_not_terminal :
    esThrottle3.state = .emergency_stop ∧
    esThrottle3.current_rps = 0 ∧
    esThrottle3.emergency_stop_triggered = true ∧
    (esThrottle3.record_request_result 13 6000 500 none).state = .backing_off ∧
    (esThrottle3.record_request_result 13 6000 500 none).state ≠
      .emergency_stop ∧
    (esThrottle3.record_request_result 13 6000 500 none).current_rps = 1 := by
  rw [esThrottle3_eq]
  rw [record_fail_backoff_no_assess _ 13 6000 500 none (by norm_num)
    (by norm_num [IntelligentThrottle.should_trigger_backoff,
      isConnectionError, esT3, esConfig, defaultThrottleConfig])
    (by simp [esT3])
    (by norm_num [esT3, esConfig, defaultThrottleConfig])]
  refine ⟨rfl, rfl, rfl, rfl, by simp, ?_⟩
  simp only [esT3, esConfig, defaultThrottleConfig]
  norm_num

/-- **C9.** Any `should_make_request` call answering `(false, _)` —
circuit breaker block, emergency stop, `current_rps ≤ 0`, or too little
time since the last dispatch — leaves `last_request_time` and the
`request_times` history unchanged; a call answering `true` answers
`(true, none)` and records `now` as the dispatch time. -/
theorem should_make_request_frame (th : IntelligentThrottle) (now : ℚ) :
    ((th.should_make_request now).2.1 = false →
      (th.should_make_request now).1.last_request_time = th.last_request_time ∧
      (th.should_make_request now).1.request_times = th.request_times) ∧
    ((th.should_make_request now).2.1 = true →
      (th.should_make_request now).2.2 = none ∧
      (th.should_make_request now).1.last_request_time = now ∧
      (th.should_make_request now).1.request_times =
        pushBounded 1000 th.request_times now) := by
  simp only [IntelligentThrottle.should_make_request]
  split_ifs <;> simp_all

/-- Witness for `should_make_request_frame`: a freshly initialised
throttle (default config, constructed at time 0) asked at time 5 — the
request is allowed and time 5 is recorded. -/
theorem should_make_request_frame_witness :
    (((IntelligentThrottle.init defaultThrottleConfig 0).should_make_request 5).2.1
        = true) ∧
    (((IntelligentThrottle.init defaultThrottleConfig 0).should_make_request 5).2.2
        = none ∧
      ((IntelligentThrottle.init defaultThrottleConfig 0).should_make_request
          5).1.last_request_time = 5 ∧
      ((IntelligentThrottle.init defaultThrottleConfig 0).should_make_request
          5).1.request_times =
        pushBounded 1000
          (IntelligentThrottle.init defaultThrottleConfig 0).request_times 5) := by
  have htrue : (((IntelligentThrottle.init defaultThrottleConfig 0).should_make_request
      5).2.1 = true) := by
    simp [IntelligentThrottle.init, IntelligentThrottle.should_make_request,
      CircuitBreaker.can_execute, defaultThrottleConfig, pushBounded,
      expCalculateDelay]
    norm_num
  exact ⟨htrue,
    (should_make_request_frame (IntelligentThrottle.init defaultThrottleConfig 0)
      5).2 htrue⟩

lemma mul_length_lt_sum (c : ℚ) :
    ∀ xs : List ℚ, xs ≠ [] → (∀ x ∈ xs, c < x) →
      c * (xs.length : ℚ) < xs.sum := by
  intro xs
  induction xs with
  | nil => intro h; exact absurd rfl h
  | cons x l ih =>
    intro _ hall
    have hx : c < x := hall x (List.mem_cons_self x l)
    cases l with
    | nil => simpa using hx
    | cons y t =>
      have hrec := ih (by simp) (fun z hz => hall z (List.mem_cons_of_mem x hz))
      simp only [List.sum_cons, List.length_cons] at hrec ⊢
      push_cast at hrec ⊢
      linarith

lemma listMean_gt (c : ℚ) (xs : List ℚ) (hne : xs ≠ [])
    (hall : ∀ x ∈ xs, c < x) : c < listMean xs := by
  have hlen : (0 : ℚ) < (xs.length : ℚ) := by
    exact_mod_cast List.length_pos.mpr hne
  rw [listMean, lt_div_iff hlen]
  exact mul_length_lt_sum c xs hne hall

lemma lastN_ne_nil {α : Type} (n : ℕ) (xs : List α) (hx : 1 ≤ xs.length)
    (hn : 1 ≤ n) : lastN n xs ≠ [] := by
  intro h
  have hlen : (lastN n xs).length = xs.length - (xs.length - n) := by
    simp [lastN]
  rw [h] at hlen
  simp at hlen
  omega

/-- The state reached inside `record_request_result` right before the
periodic health assessment: breaker updated, health snapshot collected,
immediate backoff possibly triggered. -/
def preState (th : IntelligentThrottle) (now rt : ℚ) (status : ℕ)
    (err : Option String) : IntelligentThrottle :=
  let cb := if 200 ≤ status ∧ status < 400 then th.circuit_breaker.record_success
            else th.circuit_breaker.record_failure now
  let th := { th with circuit_breaker := cb }
  let th := th.collect_health_metrics now rt status err
  if IntelligentThrottle.should_trigger_backoff th.config rt status err
  then th.trigger_backoff now else th

lemma record_eq_preState (th : IntelligentThrottle) (now rt : ℚ)
    (status : ℕ) (err : Option String) :
    th.record_request_result now rt status err =
      (if (preState th now rt status err).config.health_check_interval ≤
          now - (preState th now rt status err).last_health_check
       then { (preState th now rt status err).assess_server_health with
                last_health_check := now }
       else preState th now rt status err) := rfl

lemma preState_config (th : IntelligentThrottle) (now rt : ℚ) (status : ℕ)
    (err : Option String) :
    (preState th now rt status err).config = th.config := by
  simp only [preState, IntelligentThrottle.collect_health_metrics,
    IntelligentThrottle.trigger_backoff]
  split_ifs <;> rfl

lemma preState_lhc (th : IntelligentThrottle) (now rt : ℚ) (status : ℕ)
    (err : Option String) :
    (preState th now rt status err).last_health_check =
      th.last_health_check := by
  simp only [preState, IntelligentThrottle.collect_health_metrics,
    IntelligentThrottle.trigger_backoff]
  split_ifs <;> rfl

lemma preState_history (th : IntelligentThrottle) (now rt : ℚ) (status : ℕ)
    (err : Option String) :
    (preState th now rt status err).health_metrics_history =
      postHistory th now rt status err := by
  simp only [preState, collect_eq, postHistory_cb,
    IntelligentThrottle.trigger_backoff]
  split_ifs <;> rfl

lemma record_forces_emergency (th : IntelligentThrottle) (now rt : ℚ)
    (status : ℕ) (err : Option String)
    (hint : th.config.health_check_interval ≤ now - th.last_health_check)
    (hlen : 3 ≤ (postHistory th now rt status err).length)
    (hall : ∀ m ∈ lastN 5 (postHistory th now rt status err),
      th.config.emergency_stop_error_rate < m.error_rate) :
    (th.record_request_result now rt status err).emergency_stop_triggered =
        true ∧
    (th.record_request_result now rt status err).state = .emergency_stop ∧
    (th.record_request_result now rt status err).current_rps = 0 := by
  rw [record_eq_preState, preState_config, preState_lhc, if_pos hint]
  have hne : lastN 5 (postHistory th now rt status err) ≠ [] :=
    lastN_ne_nil 5 _ (by omega) (by omega)
  have hgt : (preState th now rt status err).config.emergency_stop_error_rate <
      listMean (((lastN 5 (preState th now rt status
        err).health_metrics_history)).map ServerHealthMetrics.error_rate) := by
    rw [preState_config, preState_history]
    refine listMean_gt _ _ (by simpa using hne) ?_
    intro x hx
    simp only [List.mem_map] at hx
    obtain ⟨m, hm, rfl⟩ := hx
    exact hall m hm
  have hlen3 : ¬ (preState th now rt status
      err).health_metrics_history.length < 3 := by
    rw [preState_history]; omega
  rw [assess_emergency _ hlen3 hgt]
  simp [IntelligentThrottle.trigger_emergency_stop]

/-- **C3 (amended).** A `record_request_result` call made when the
periodic health check is due, with at least 3 snapshots in the rolling
window all of whose error-rate samples exceed
`emergency_stop_error_rate`, forces EmergencyStop with
`current_rps = 0`.  Afterwards `should_make_request` answers
`allowed = false` on every call until `reset_emergency_stop()` — with
delay `none` whenever the circuit breaker permits execution, but with
delay `some circuit_timeout` when the breaker is open (the claim's
unconditional `(false, none)` is refuted by
`emergency_stop_dispatch_counterexample`).  `reset_emergency_stop`
re-enters Recovery at `min_rps` with the backoff attempt counter
reset. -/
theorem emergency_stop_forcing_and_reset (th th2 : IntelligentThrottle)
    (now rt t : ℚ) (status : ℕ) (err : Option String)
    (hint : th.config.health_check_interval ≤ now - th.last_health_check)
    (hlen : 3 ≤ (postHistory th now rt status err).length)
    (hall : ∀ m ∈ lastN 5 (postHistory th now rt status err),
      th.config.emergency_stop_error_rate < m.error_rate)
    (hes2 : th2.emergency_stop_triggered = true) :
    ((th.record_request_result now rt status err).emergency_stop_triggered =
        true ∧
      (th.record_request_result now rt status err).state = .emergency_stop ∧
      (th.record_request_result now rt status err).current_rps = 0) ∧
    ((th2.should_make_request t).2.1 = false) ∧
    ((th2.circuit_breaker.can_execute t).1 = true →
      (th2.should_make_request t).2 = (false, none)) ∧
    (th2.reset_emergency_stop.state = .recovery ∧
      th2.reset_emergency_stop.current_rps = th2.config.min_rps ∧
      th2.reset_emergency_stop.backoff_attempt = 0 ∧
      th2.reset_emergency_stop.emergency_stop_triggered = false) := by
  refine ⟨record_forces_emergency th now rt status err hint hlen hall, ?_, ?_, ?_⟩
  · simp only [IntelligentThrottle.should_make_request]
    by_cases h1 : (th2.circuit_breaker.can_execute t).1 = false
    · simp [h1, hes2]
    · simp [h1, hes2]
  · intro hexec
    simp only [IntelligentThrottle.should_make_request]
    have h1 : ¬ (th2.circuit_breaker.can_execute t).1 = false := by
      simp [hexec]
    simp [h1, hes2]
  · simp [IntelligentThrottle.reset_emergency_stop, hes2]

/-- Witness for `emergency_stop_forcing_and_reset`: the third failed
probe of the emergency-stop scenario (state `esT2`, a 404 at time 12)
forces the stop, and the latched state `esState` refuses dispatch and
resets into Recovery. -/
theorem emergency_stop_forcing_and_reset_witness :
    ((esT2.record_request_result 12 100 404 none).emergency_stop_triggered =
        true ∧
      (esT2.record_request_result 12 100 404 none).state = .emergency_stop ∧
      (esT2.record_request_result 12 100 404 none).current_rps = 0) ∧
    ((esState.should_make_request 20).2.1 = false) ∧
    ((esState.circuit_breaker.can_execute 20).1 = true →
      (esState.should_make_request 20).2 = (false, none)) ∧
    (esState.reset_emergency_stop.state = .recovery ∧
      esState.reset_emergency_stop.current_rps = esState.config.min_rps ∧
      esState.reset_emergency_stop.backoff_attempt = 0 ∧
      esState.reset_emergency_stop.emergency_stop_triggered = false) := by
  refine emergency_stop_forcing_and_reset esT2 esState 12 100 20 404 none
    ?_ ?_ ?_ rfl
  · norm_num [esT2, esConfig, defaultThrottleConfig]
  · norm_num [postHistory, pushBounded, IntelligentThrottle.newHealthMetric,
      esT2, esConfig, defaultThrottleConfig]
  · intro m hm
    simp only [postHistory, pushBounded, IntelligentThrottle.newHealthMetric,
      esT2, esConfig, defaultThrottleConfig, lastN, isConnectionError, m404,
      List.filter, List.isEmpty] at hm
    norm_num at hm
    rcases hm with h | h | h <;>
      simp [h, m404, esT2, esConfig, defaultThrottleConfig] <;> norm_num

/-- Scenario state shape of the 404-only emergency run: histories of
`m404` snapshots, a closed breaker with `fc` consecutive failures, and
the emergency latch `es`. -/
def es404 (hist : List ℚ) (fc : ℕ) (lhc : ℚ) (es : Bool) : IntelligentThrottle :=
  { config := esConfig
    current_rps := if es then 0 else 10
    target_rps := 10
    state := if es then .emergency_stop else .normal
    backoff_attempt := 0
    last_backoff_time := 0
    health_metrics_history := hist.map m404
    last_health_check := lhc
    circuit_breaker := ⟨10, 30, 3, .closed, fc, 0, 0⟩
    request_times := []
    last_request_time := 0
    emergency_stop_triggered := es }

/-- Ten failed requests (status 404, latency 100) at times 6, 7, 12,
13, …, 19: the error-rate samples all exceed the configured
`emergency_stop_error_rate = 5`, the assessment at time 12 forces the
emergency stop, and the tenth consecutive breaker failure at time 19
opens the circuit. -/
def esRun : IntelligentThrottle :=
  (((((((((((IntelligentThrottle.init esConfig 0).record_request_result
    6 100 404 none).record_request_result
    7 100 404 none).record_request_result
    12 100 404 none).record_request_result
    13 100 404 none).record_request_result
    14 100 404 none).record_request_result
    15 100 404 none).record_request_result
    16 100 404 none).record_request_result
    17 100 404 none).record_request_result
    18 100 404 none).record_request_result
    19 100 404 none)

/-- The state `esRun` evaluates to: emergency stop latched at the
assessments of times 12 and 17, circuit opened by the tenth failure at
time 19. -/
def esRunEnd : IntelligentThrottle :=
  { config := esConfig
    current_rps := 0
    target_rps := 10
    state := .emergency_stop
    backoff_attempt := 0
    last_backoff_time := 0
    health_metrics_history :=
      ([6, 7, 12, 13, 14, 15, 16, 17, 18, 19] : List ℚ).map m404
    last_health_check := 17
    circuit_breaker := ⟨10, 30, 3, .opened, 10, 0, 19⟩
    request_times := []
    last_request_time := 0
    emergency_stop_triggered := true }

lemma esRun_eq : esRun = esRunEnd := by
  have e1 : (IntelligentThrottle.init esConfig 0).record_request_result
      6 100 404 none = es404 [6] 1 6 false := by
    rw [record_fail_assess_short _ 6 100 404 none (by norm_num)
      (by norm_num [IntelligentThrottle.should_trigger_backoff,
        isConnectionError, IntelligentThrottle.init, esConfig,
        defaultThrottleConfig])
      (by norm_num [IntelligentThrottle.init, esConfig, defaultThrottleConfig])
      (by norm_num [postHistory, pushBounded, IntelligentThrottle.newHealthMetric,
        IntelligentThrottle.init, esConfig, defaultThrottleConfig])]
    simp [IntelligentThrottle.init, es404, esConfig, defaultThrottleConfig,
      postHistory, pushBounded, IntelligentThrottle.newHealthMetric,
      isConnectionError, CircuitBreaker.record_failure, m404]
    norm_num
  have htrig : IntelligentThrottle.should_trigger_backoff esConfig 100 404
      none = false := by
    norm_num [IntelligentThrottle.should_trigger_backoff, isConnectionError,
      esConfig, defaultThrottleConfig]
  have step_quiet : ∀ (hist hist2 : List ℚ) (fc fc2 : ℕ) (lhc now : ℚ)
      (es : Bool),
      hist2 = hist ++ [now] →
      fc2 = fc + 1 →
      ¬ (5 : ℚ) ≤ now - lhc →
      ¬ (10 : ℕ) ≤ fc + 1 →
      hist.length + 1 ≤ 20 →
      (es404 hist fc lhc es).record_request_result now 100 404 none =
        es404 hist2 fc2 lhc es := by
    intro hist hist2 fc fc2 lhc now es hh hf hnow hfc hlen
    subst hh hf
    rw [record_fail_no_assess _ now 100 404 none (by norm_num)
      (by simpa [es404, esConfig, defaultThrottleConfig] using htrig)
      (by simpa [es404, esConfig, defaultThrottleConfig] using hnow)]
    simp [es404, esConfig, defaultThrottleConfig, postHistory, pushBounded,
      IntelligentThrottle.newHealthMetric, isConnectionError,
      CircuitBreaker.record_failure, m404, hfc, hlen]
    norm_num
  have step_em : ∀ (hist hist2 : List ℚ) (fc fc2 : ℕ) (lhc now : ℚ)
      (es : Bool),
      hist2 = hist ++ [now] →
      fc2 = fc + 1 →
      (5 : ℚ) ≤ now - lhc →
      3 ≤ hist.length + 1 →
      ¬ (10 : ℕ) ≤ fc + 1 →
      hist.length + 1 ≤ 20 →
      (es404 hist fc lhc es).record_request_result now 100 404 none =
        es404 hist2 fc2 now true := by
    intro hist hist2 fc fc2 lhc now es hh hf hnow hl3 hfc hlen
    subst hh hf
    have hpost : postHistory (es404 hist fc lhc es) now 100 404 none =
        (hist ++ [now]).map m404 := by
      simp [es404, esConfig, defaultThrottleConfig, postHistory, pushBounded,
        IntelligentThrottle.newHealthMetric, isConnectionError, m404, hlen]
      norm_num
    rw [record_fail_emergency _ now 100 404 none (by norm_num)
      (by simpa [es404, esConfig, defaultThrottleConfig] using htrig)
      (by simpa [es404, esConfig, defaultThrottleConfig] using hnow)
      (by rw [hpost]; simp; omega)
      (by
        rw [hpost]
        refine listMean_gt _ _ ?_ ?_
        · intro hmap
          have hL := List.map_eq_nil_iff.mp hmap
          refine lastN_ne_nil 5 ((hist ++ [now]).map m404) ?_ (by omega) hL
          simp
        · intro x hx
          simp only [List.mem_map] at hx
          obtain ⟨m, hm, rfl⟩ := hx
          have hm2 : m ∈ ((hist ++ [now]).map m404) := by
            have hdrop : lastN 5 ((hist ++ [now]).map m404) =
                ((hist ++ [now]).map m404).drop
                  (((hist ++ [now]).map m404).length - 5) := rfl
            rw [hdrop] at hm
            exact List.mem_of_mem_drop hm
          simp only [List.mem_map] at hm2
          obtain ⟨t0, _, rfl⟩ := hm2
          norm_num [m404, es404, esConfig, defaultThrottleConfig])]
    simp [es404, esConfig, defaultThrottleConfig, postHistory, pushBounded,
      IntelligentThrottle.newHealthMetric, isConnectionError,
      CircuitBreaker.record_failure, m404, hfc, hlen]
    norm_num
  have e2 := step_quiet [6] [6, 7] 1 2 6 7 false (by norm_num) (by norm_num)
    (by norm_num) (by norm_num) (by norm_num)
  have e3 := step_em [6, 7] [6, 7, 12] 2 3 6 12 false (by norm_num)
    (by norm_num) (by norm_num) (by norm_num) (by norm_num) (by norm_num)
  have e4 := step_quiet [6, 7, 12] [6, 7, 12, 13] 3 4 12 13 true
    (by norm_num) (by norm_num) (by norm_num) (by norm_num) (by norm_num)
  have e5 := step_quiet [6, 7, 12, 13] [6, 7, 12, 13, 14] 4 5 12 14 true
    (by norm_num) (by norm_num) (by norm_num) (by norm_num) (by norm_num)
  have e6 := step_quiet [6, 7, 12, 13, 14] [6, 7, 12, 13, 14, 15] 5 6 12 15
    true (by norm_num) (by norm_num) (by norm_num) (by norm_num) (by norm_num)
  have e7 := step_quiet [6, 7, 12, 13, 14, 15] [6, 7, 12, 13, 14, 15, 16] 6 7
    12 16 true (by norm_num) (by norm_num) (by norm_num) (by norm_num)
    (by norm_num)
  have e8 := step_em [6, 7, 12, 13, 14, 15, 16] [6, 7, 12, 13, 14, 15, 16, 17]
    7 8 12 17 true (by norm_num) (by norm_num) (by norm_num) (by norm_num)
    (by norm_num) (by norm_num)
  have e9 := step_quiet [6, 7, 12, 13, 14, 15, 16, 17]
    [6, 7, 12, 13, 14, 15, 16, 17, 18] 8 9 17 18 true (by norm_num)
    (by norm_num) (by norm_num) (by norm_num) (by norm_num)
  have e10 : (es404 [6, 7, 12, 13, 14, 15, 16, 17, 18] 9 17
      true).record_request_result 19 100 404 none = esRunEnd := by
    rw [record_fail_no_assess _ 19 100 404 none (by norm_num)
      (by simpa [es404, esConfig, defaultThrottleConfig] using htrig)
      (by norm_num [es404, esConfig, defaultThrottleConfig])]
    simp [es404, esRunEnd, esConfig, defaultThrottleConfig, postHistory,
      pushBounded, IntelligentThrottle.newHealthMetric, isConnectionError,
      CircuitBreaker.record_failure, CircuitBreaker.doOpen, m404]
    norm_num
  rw [esRun, e1, e2, e3, e4, e5, e6, e7, e8, e9, e10]

/-- **C3 (counterexample).** In the run `esRun` — ten failed requests
whose error-rate samples all exceed `emergency_stop_error_rate` — the
emergency stop is duly forced with `current_rps = 0`, but the ten
consecutive failures have also opened the circuit breaker, so the next
`should_make_request` returns `(false, some circuit_timeout)` =
`(false, some 30)`, not `(false, none)` as the claim states. -/
theorem emergency_stop_dispatch_counterexample :
    esRun.emergency_stop_triggered = true ∧
    esRun.state = .emergency_stop ∧
    esRun.current_rps = 0 ∧
    (esRun.should_make_request 20).2.1 = false ∧
    (esRun.should_make_request 20).2.2 = some 30 ∧
    (esRun.should_make_request 20).2.2 ≠ none := by
  rw [esRun_eq]
  refine ⟨rfl, rfl, rfl, ?_, ?_, ?_⟩ <;>
  · simp [IntelligentThrottle.should_make_request, esRunEnd, esConfig,
      defaultThrottleConfig, CircuitBreaker.can_execute]
    norm_num
    try simp

/-! ## Ramp traffic generator (`patterns.py`, `RampTrafficGenerator`) -/

/-- `start_rps = pattern.ramp_start_rps or 0` (Python `or`: a stored 0
is falsy and also yields 0). -/
def rampStartRate (p : RequestPattern) : ℚ :=
  ((p.ramp_start_rps.getD 0 : ℤ) : ℚ)

/-- `end_rps = pattern.ramp_end_rps or pattern.target_rps` (Python
`or`: a stored 0 is falsy, so 0 falls back to `target_rps`). -/
def rampEndRate (p : RequestPattern) : ℚ :=
  match p.ramp_end_rps with
  | some v => if v = 0 then (p.target_rps : ℚ) else (v : ℚ)
  | none => (p.target_rps : ℚ)

/-- The instantaneous ramp rate:
`start_rps + (end_rps - start_rps) * progress` with
`progress = (t - start_time) / duration`. -/
def rampRate (startT s e D t : ℚ) : ℚ :=
  s + (e - s) * ((t - startT) / D)

/-- The `while current_time < end_time` loop of
`RampTrafficGenerator.generate_schedule`: when the computed rate is
`≤ 0` advance by `0.1` seconds and emit nothing, otherwise emit
`(current_time, current_rps)` and advance by `1 / current_rps`.  `fuel`
bounds the recursion (the Python generator is consumed lazily); every
property below holds for every fuel. -/
def rampScheduleAux (startT endT s e D : ℚ) : ℕ → ℚ → List (ℚ × ℚ)
  | 0, _ => []
  | fuel + 1, current =>
    if current < endT then
      let rate := rampRate startT s e D current
      if rate ≤ 0 then
        rampScheduleAux startT endT s e D fuel (current + 1 / 10)
      else
        (current, rate) :: rampScheduleAux startT endT s e D fuel (current + 1 / rate)
    else []

/-- `RampTrafficGenerator.generate_schedule`: the `(scheduled_time,
current_rps)` pairs of the emitted dispatches. -/
def rampSchedule (start : ℚ) (p : RequestPattern) (fuel : ℕ) : List (ℚ × ℚ) :=
  rampScheduleAux start (start + (p.duration_seconds : ℚ)) (rampStartRate p)
    (rampEndRate p) (p.duration_seconds : ℚ) fuel start

lemma rampScheduleAux_rate (startT endT s e D : ℚ) :
    ∀ (fuel : ℕ) (c : ℚ) (pr : ℚ × ℚ),
      pr ∈ rampScheduleAux startT endT s e D fuel c →
      pr.2 = rampRate startT s e D pr.1 := by
  intro fuel
  induction fuel with
  | zero => intro c pr h; simp [rampScheduleAux] at h
  | succ f ih =>
    intro c pr h
    simp only [rampScheduleAux] at h
    by_cases hc : c < endT
    · rw [if_pos hc] at h
      by_cases hr : rampRate startT s e D c ≤ 0
      · rw [if_pos hr] at h
        exact ih _ pr h
      · rw [if_neg hr] at h
        rcases List.mem_cons.mp h with hhd | htl
        · rw [hhd]
        · exact ih _ pr htl
    · rw [if_neg hc] at h
      simp at h

lemma rampScheduleAux_lb (startT endT s e D : ℚ) :
    ∀ (fuel : ℕ) (c : ℚ) (pr : ℚ × ℚ),
      pr ∈ rampScheduleAux startT endT s e D fuel c → c ≤ pr.1 := by
  intro fuel
  induction fuel with
  | zero => intro c pr h; simp [rampScheduleAux] at h
  | succ f ih =>
    intro c pr h
    simp only [rampScheduleAux] at h
    by_cases hc : c < endT
    · rw [if_pos hc] at h
      by_cases hr : rampRate startT s e D c ≤ 0
      · rw [if_pos hr] at h
        have := ih _ pr h
        linarith
      · rw [if_neg hr] at h
        rcases List.mem_cons.mp h with hhd | htl
        · rw [hhd]
        · have := ih _ pr htl
          have hrpos : 0 < rampRate startT s e D c := lt_of_not_le hr
          have : c + 1 / rampRate startT s e D c ≤ pr.1 := this
          have h10 : 0 < 1 / rampRate startT s e D c := by positivity
          linarith
    · rw [if_neg hc] at h
      simp at h

lemma rampScheduleAux_head (startT endT s e D : ℚ) :
    ∀ (fuel : ℕ) (c : ℚ) (b : ℚ × ℚ) (l : List (ℚ × ℚ)),
      rampScheduleAux startT endT s e D fuel c = b :: l →
      b.1 = c ∨ rampRate startT s e D c ≤ 0 := by
  intro fuel
  induction fuel with
  | zero => intro c b l h; simp [rampScheduleAux] at h
  | succ f ih =>
    intro c b l h
    simp only [rampScheduleAux] at h
    by_cases hc : c < endT
    · rw [if_pos hc] at h
      by_cases hr : rampRate startT s e D c ≤ 0
      · exact Or.inr hr
      · rw [if_neg hr] at h
        have hb : (c, rampRate startT s e D c) = b := by
          injection h with h1 h2
        exact Or.inl (by rw [← hb])
    · rw [if_neg hc] at h
      simp at h

lemma rampScheduleAux_chain (startT endT s e D : ℚ)
    (R : (ℚ × ℚ) → (ℚ × ℚ) → Prop)
    (hstep : ∀ c b, ¬ rampRate startT s e D c ≤ 0 → c < endT →
      (b.1 = c + 1 / rampRate startT s e D c ∨
        rampRate startT s e D (c + 1 / rampRate startT s e D c) ≤ 0) →
      c + 1 / rampRate startT s e D c ≤ b.1 →
      b.2 = rampRate startT s e D b.1 →
      R (c, rampRate startT s e D c) b) :
    ∀ (fuel : ℕ) (c : ℚ),
      (rampScheduleAux startT endT s e D fuel c).Chain' R := by
  intro fuel
  induction fuel with
  | zero => intro c; simp [rampScheduleAux]
  | succ f ih =>
    intro c
    simp only [rampScheduleAux]
    by_cases hc : c < endT
    · rw [if_pos hc]
      by_cases hr : rampRate startT s e D c ≤ 0
      · rw [if_pos hr]
        exact ih _
      · rw [if_neg hr]
        refine List.chain'_cons'.mpr ⟨?_, ih _⟩
        intro b hb
        cases haux : rampScheduleAux startT endT s e D f
            (c + 1 / rampRate startT s e D c) with
        | nil => rw [haux] at hb; simp at hb
        | cons b' l' =>
          rw [haux] at hb
          simp only [List.head?_cons, Option.mem_def, Option.some.injEq] at hb
          subst hb
          refine hstep c b' hr hc ?_ ?_ ?_
          · exact rampScheduleAux_head startT endT s e D f _ b' l' haux
          · exact rampScheduleAux_lb startT endT s e D f _ b'
              (haux ▸ List.mem_cons_self b' l')
          · exact rampScheduleAux_rate startT endT s e D f _ b'
              (haux ▸ List.mem_cons_self b' l')
    · rw [if_neg hc]
      simp

lemma rampRate_mono (startT s e D : ℚ) (hD : 0 < D) (hse : s ≤ e)
    (t t' : ℚ) (h : t ≤ t') :
    rampRate startT s e D t ≤ rampRate startT s e D t' := by
  unfold rampRate
  have h1 : (t - startT) / D ≤ (t' - startT) / D :=
    (div_le_div_right hD).mpr (by linarith)
  have h2 := mul_le_mul_of_nonneg_left h1 (by linarith : (0 : ℚ) ≤ e - s)
  linarith

lemma rampRate_anti (startT s e D : ℚ) (hD : 0 < D) (hse : e ≤ s)
    (t t' : ℚ) (h : t ≤ t') :
    rampRate startT s e D t' ≤ rampRate startT s e D t := by
  unfold rampRate
  have h1 : (t - startT) / D ≤ (t' - startT) / D :=
    (div_le_div_right hD).mpr (by linarith)
  have h2 := mul_le_mul_of_nonpos_left h1 (by linarith : e - s ≤ (0 : ℚ))
  linarith

/-- **C8.** For every Ramp pattern with positive duration `D`: the rate
annotated on each emitted dispatch at time `t` equals
`start_rate + (end_rate − start_rate) · ((t − start)/D)` (the rate at
the elapsed fraction); the emitted timestamps strictly increase, and
each event is followed either exactly `1/rate` later by the next one or
by a skip (the rate at the next slot is `≤ 0`); the emitted rates are
monotonically non-decreasing when `start_rate ≤ end_rate` and
non-increasing when `end_rate ≤ start_rate`; and whenever the computed
rate at the current slot `c` inside the window is `≤ 0`, the loop
advances time by the fixed `0.1`-second step and emits nothing. -/
theorem ramp_schedule_spec (start : ℚ) (p : RequestPattern) (fuel : ℕ)
    (c : ℚ) (hD : 0 < (p.duration_seconds : ℚ)) :
    (∀ pr ∈ rampSchedule start p fuel,
      pr.2 = rampStartRate p + (rampEndRate p - rampStartRate p) *
        ((pr.1 - start) / (p.duration_seconds : ℚ))) ∧
    (rampSchedule start p fuel).Chain' (fun a b => a.1 < b.1) ∧
    (rampSchedule start p fuel).Chain' (fun a b =>
      b.1 = a.1 + 1 / a.2 ∨
        rampRate start (rampStartRate p) (rampEndRate p)
          (p.duration_seconds : ℚ) (a.1 + 1 / a.2) ≤ 0) ∧
    (rampStartRate p ≤ rampEndRate p →
      (rampSchedule start p fuel).Chain' (fun a b => a.2 ≤ b.2)) ∧
    (rampEndRate p ≤ rampStartRate p →
      (rampSchedule start p fuel).Chain' (fun a b => b.2 ≤ a.2)) ∧
    (rampRate start (rampStartRate p) (rampEndRate p)
        (p.duration_seconds : ℚ) c ≤ 0 →
      c < start + (p.duration_seconds : ℚ) →
      rampScheduleAux start (start + (p.duration_seconds : ℚ))
          (rampStartRate p) (rampEndRate p) (p.duration_seconds : ℚ)
          (fuel + 1) c =
        rampScheduleAux start (start + (p.duration_seconds : ℚ))
          (rampStartRate p) (rampEndRate p) (p.duration_seconds : ℚ)
          fuel (c + 1 / 10)) := by
  refine ⟨?_, ?_, ?_, ?_, ?_, ?_⟩
  · intro pr hpr
    exact rampScheduleAux_rate _ _ _ _ _ fuel start pr hpr
  · refine rampScheduleAux_chain _ _ _ _ _ _ ?_ fuel start
    intro cc b hr _ _ hlb _
    have hpos : 0 < rampRate start (rampStartRate p) (rampEndRate p)
        (p.duration_seconds : ℚ) cc := lt_of_not_le hr
    have h10 : 0 < 1 / rampRate start (rampStartRate p) (rampEndRate p)
        (p.duration_seconds : ℚ) cc := by positivity
    simp only []
    linarith
  · refine rampScheduleAux_chain _ _ _ _ _ _ ?_ fuel start
    intro cc b _ _ hgap _ _
    exact hgap
  · intro hse
    refine rampScheduleAux_chain _ _ _ _ _ _ ?_ fuel start
    intro cc b hr _ _ hlb hrate
    have hpos : 0 < rampRate start (rampStartRate p) (rampEndRate p)
        (p.duration_seconds : ℚ) cc := lt_of_not_le hr
    have h10 : 0 < 1 / rampRate start (rampStartRate p) (rampEndRate p)
        (p.duration_seconds : ℚ) cc := by positivity
    have hcb : cc ≤ b.1 := by linarith
    have := rampRate_mono start (rampStartRate p) (rampEndRate p)
      (p.duration_seconds : ℚ) hD hse cc b.1 hcb
    simp only []
    rw [hrate]
    exact this
  · intro hse
    refine rampScheduleAux_chain _ _ _ _ _ _ ?_ fuel start
    intro cc b hr _ _ hlb hrate
    have hpos : 0 < rampRate start (rampStartRate p) (rampEndRate p)
        (p.duration_seconds : ℚ) cc := lt_of_not_le hr
    have h10 : 0 < 1 / rampRate start (rampStartRate p) (rampEndRate p)
        (p.duration_seconds : ℚ) cc := by positivity
    have hcb : cc ≤ b.1 := by linarith
    have := rampRate_anti start (rampStartRate p) (rampEndRate p)
      (p.duration_seconds : ℚ) hD hse cc b.1 hcb
    simp only []
    rw [hrate]
    exact this
  · intro hr hc
    simp only [rampScheduleAux, if_pos hc, if_pos hr]

/-- Witness for `ramp_schedule_spec`: a ramp from 1 to 3 rps over 2
seconds, probed with fuel 8 and skip-slot `c = 0`. -/
theorem ramp_schedule_spec_witness :
    let p : RequestPattern := ⟨"ramp", 2, 3, some 1, some 3, none, none⟩
    (∀ pr ∈ rampSchedule 0 p 8,
      pr.2 = rampStartRate p + (rampEndRate p - rampStartRate p) *
        ((pr.1 - 0) / (p.duration_seconds : ℚ))) ∧
    (rampSchedule 0 p 8).Chain' (fun a b => a.1 < b.1) ∧
    (rampSchedule 0 p 8).Chain' (fun a b =>
      b.1 = a.1 + 1 / a.2 ∨
        rampRate 0 (rampStartRate p) (rampEndRate p)
          (p.duration_seconds : ℚ) (a.1 + 1 / a.2) ≤ 0) ∧
    (rampStartRate p ≤ rampEndRate p →
      (rampSchedule 0 p 8).Chain' (fun a b => a.2 ≤ b.2)) ∧
    (rampEndRate p ≤ rampStartRate p →
      (rampSchedule 0 p 8).Chain' (fun a b => b.2 ≤ a.2)) ∧
    (rampRate 0 (rampStartRate p) (rampEndRate p)
        (p.duration_seconds : ℚ) 0 ≤ 0 →
      (0 : ℚ) < 0 + (p.duration_seconds : ℚ) →
      rampScheduleAux 0 (0 + (p.duration_seconds : ℚ))
          (rampStartRate p) (rampEndRate p) (p.duration_seconds : ℚ) 9 0 =
        rampScheduleAux 0 (0 + (p.duration_seconds : ℚ))
          (rampStartRate p) (rampEndRate p) (p.duration_seconds : ℚ)
          8 (0 + 1 / 10)) :=
  ramp_schedule_spec 0 ⟨"ramp", 2, 3, some 1, some 3, none, none⟩ 8 0
    (by norm_num)

end Slayer
